import Mathlib

/-!
# Template service broker: the bind operation

A shallow embedding of `pkg/template/servicebroker/bind.go`
(`makeEnvVariableName`, `getServices`, `getSecrets`, `Bind`) together with the
properties of the bind step that are stated about it.

Conventions of the embedding:

* a Go `map[string]string` is an association list with the two operations the
  code uses, assignment `m[k] = v` (`StringMap.set`, which overwrites the entry
  of an existing key and otherwise adds one) and lookup (`StringMap.get`);
* a Go function that can stop with a run-time panic returns an `Option`
  (`getServices` indexes `Ports[0]`) or a `Result` with a `panicked` case;
* the API server and the authorizer are explicit: `Cluster` is the stored
  state, `World` adds the authorization oracle and the failures the transport
  may inject, and every call made is recorded in a trace.
-/

namespace ServiceBroker

/-! ## Go maps of strings -/

/-- A Go `map[string]string` as an association list. -/
abbrev StringMap := List (String × String)

namespace StringMap

/-- The lookup `v, ok := m[k]`. -/
def get : StringMap → String → Option String
  | [], _ => none
  | (k', v) :: rest, k => if k' = k then some v else get rest k

/-- The assignment `m[k] = v`: the entry of `k` is overwritten, or added. -/
def set : StringMap → String → String → StringMap
  | [], k, v => [(k, v)]
  | (k', v') :: rest, k, v =>
    if k' = k then (k, v) :: rest else (k', v') :: set rest k v

/-- The expression `m[k]`, which is the empty string for an absent key. -/
def index (m : StringMap) (k : String) : String := (m.get k).getD ""

/-- The keys of the map, in the order of the association list. -/
def keys (m : StringMap) : List String := m.map Prod.fst

end StringMap

/-! ## The identifier normalizer -/

/-- The replacement `strings.Replace(str, "-", "_", -1)`, on one character. -/
def replaceHyphen (c : Char) : Char := if c = '-' then '_' else c

/-- Embedding of `makeEnvVariableName`:
`strings.ToUpper(strings.Replace(str, "-", "_", -1))`.  Upper-casing is that of
the ASCII letters, which is what `strings.ToUpper` does on the names the API
server admits for objects and ports (lower-case DNS labels). -/
def makeEnvVariableName (str : String) : String :=
  ⟨(str.data.map replaceHyphen).map Char.toUpper⟩

/-- Embedding of `strconv.Itoa`: the decimal rendering of an integer. -/
def Itoa : Int → String
  | Int.ofNat n => Nat.repr n
  | Int.negSucc n => "-" ++ Nat.repr (n + 1)

/-! ## API objects -/

/-- A `kapi.ServicePort`: an optional name and an `int32` port value. -/
structure ServicePort where
  name : String
  port : Int
deriving DecidableEq, Repr

/-- A `kapi.Service`, with the fields the broker reads. -/
structure Service where
  name : String
  ns : String
  labels : StringMap
  clusterIP : String
  ports : List ServicePort
deriving DecidableEq, Repr

/-- A `kapi.Secret`, with the fields the broker reads. -/
structure Secret where
  name : String
  ns : String
  labels : StringMap
  type : String
  data : StringMap
deriving DecidableEq, Repr

/-- The constant `kapi.SecretTypeBasicAuth`. -/
def SecretTypeBasicAuth : String := "kubernetes.io/basic-auth"

/-- The constant `kapi.BasicAuthUsernameKey`. -/
def BasicAuthUsernameKey : String := "username"

/-- The constant `kapi.BasicAuthPasswordKey`. -/
def BasicAuthPasswordKey : String := "password"

/-- A `templateapi.TemplateInstance`: its name, namespace and
`Spec.Template.UID`. -/
structure TemplateInstance where
  name : String
  ns : String
  templateUID : String
deriving DecidableEq, Repr

/-- A `templateapi.BrokerTemplateInstance` (cluster scoped): its name, its
resource version, the reference `Spec.TemplateInstance` (namespace and name) and
the list `Spec.BindingIDs`. -/
structure BrokerTemplateInstance where
  name : String
  resourceVersion : Nat
  templateInstanceNamespace : String
  templateInstanceName : String
  bindingIDs : List String
deriving DecidableEq, Repr

/-- An `api.BindRequest`; the map `Parameters` is an association list, so that
`len(breq.Parameters)` is the length of the list. -/
structure BindRequest where
  serviceID : String
  planID : String
  parameters : StringMap
deriving DecidableEq, Repr

/-- A `user.DefaultInfo` carrying only a name. -/
structure User where
  name : String
deriving DecidableEq, Repr

/-- The `authorization.ResourceAttributes` of a subject access review. -/
structure ResourceAttributes where
  ns : String
  verb : String
  group : String
  resource : String
deriving DecidableEq, Repr

/-- What `bind.go` imports from packages that are not part of the sources; the
embedding takes these as parameters. -/
structure Imports where
  /-- The constant `templateapi.RequesterUsernameParameterKey`. -/
  RequesterUsernameParameterKey : String
  /-- The constant `templateapi.GroupName`. -/
  TemplateGroupName : String
  /-- The constant `templateapi.TemplateInstanceLabel`. -/
  TemplateInstanceLabel : String
  /-- The function `ValidateBindRequest`: the list of validation errors. -/
  ValidateBindRequest : BindRequest → List String
  /-- The predicate `kapi.IsServiceIPSet`. -/
  IsServiceIPSet : Service → Bool
  /-- Whether `labels.NewRequirement(TemplateInstanceLabel, selection.Equals,
  []string{instanceID})` returns a requirement (rather than `nil` and an
  error, which `bind.go` discards). -/
  NewRequirementOK : String → Bool

/-! ## The rendering loops of `getServices` and `getSecrets` -/

/-- The body of the inner loop of `getServices` (lines 70-74): a named port adds
`name_PORTNAME`. -/
def portStep (name : String) (services : StringMap) (port : ServicePort) : StringMap :=
  if port.name ≠ "" then
    services.set (name ++ "_" ++ makeEnvVariableName port.name) (Itoa port.port)
  else services

/-- The body of the outer loop of `getServices` (lines 59-75).  The result is
`none` when the iteration panics on `service.Spec.Ports[0]`. -/
def serviceStep (imp : Imports) (services : StringMap) (service : Service) :
    Option StringMap :=
  if !imp.IsServiceIPSet service || service.ports.length == 0 then
    some services
  else
    let name := makeEnvVariableName service.name ++ "_SERVICE_HOST"
    let services := services.set name service.clusterIP
    let name := makeEnvVariableName service.name ++ "_SERVICE_PORT"
    match service.ports[0]? with
    | none => none
    | some first =>
      let services := services.set name (Itoa first.port)
      some (service.ports.foldl (portStep name) services)

/-- The loop of `getServices` over `serviceList.Items` (lines 59-75), started on
the map `services`. -/
def renderServicesFrom (imp : Imports) : StringMap → List Service → Option StringMap
  | services, [] => some services
  | services, service :: rest =>
    match serviceStep imp services service with
    | none => none
    | some services => renderServicesFrom imp services rest

/-- Lines 58-77 of `getServices`: the map built from the listed services. -/
def renderServices (imp : Imports) (items : List Service) : Option StringMap :=
  renderServicesFrom imp [] items

/-- The body of the loop of `getSecrets` (lines 108-118). -/
def secretStep (secrets : StringMap) (secret : Secret) : StringMap :=
  if secret.type ≠ SecretTypeBasicAuth then secrets
  else
    let name := makeEnvVariableName (secret.name ++ "_" ++ BasicAuthUsernameKey)
    let secrets := secrets.set name (secret.data.index BasicAuthUsernameKey)
    let name := makeEnvVariableName (secret.name ++ "_" ++ BasicAuthPasswordKey)
    secrets.set name (secret.data.index BasicAuthPasswordKey)

/-- Lines 107-120 of `getSecrets`: the map built from the listed secrets. -/
def renderSecrets (items : List Secret) : StringMap :=
  items.foldl secretStep []

/-- The predicate `kapi.IsServiceIPSet` of Kubernetes: the cluster IP is
neither empty nor the marker `None` of a headless service. -/
def isServiceIPSet (service : Service) : Bool :=
  service.clusterIP != "None" && service.clusterIP != ""

/-- A concrete choice of the imported declarations, used in examples. -/
def originImports : Imports where
  RequesterUsernameParameterKey := "template.openshift.io/requester-username"
  TemplateGroupName := "template.openshift.io"
  TemplateInstanceLabel := "template.openshift.io/template-instance"
  ValidateBindRequest := fun _ => []
  IsServiceIPSet := isServiceIPSet
  NewRequirementOK := fun _ => true

/-! ## Errors and responses -/

/-- The classification of an error of the API machinery (`kerrors.IsNotFound`,
`kerrors.IsForbidden`, a version conflict, anything else). -/
inductive StatusReason where
  | NotFound
  | Forbidden
  | Conflict
  | Other
deriving DecidableEq, Repr

/-- A Go `error` value as the broker meets it: `errs.ToAggregate()`,
`errors.New(text)`, or a status error of the API machinery. -/
inductive Error where
  | aggregate (errs : List String)
  | new (text : String)
  | status (reason : StatusReason) (message : String)
deriving DecidableEq, Repr

/-- The test `kerrors.IsNotFound`. -/
def IsNotFound : Error → Bool
  | .status .NotFound _ => true
  | _ => false

/-- The test `kerrors.IsForbidden`. -/
def IsForbidden : Error → Bool
  | .status .Forbidden _ => true
  | _ => false

/-- The test `kerrors.IsConflict`. -/
def IsConflict : Error → Bool
  | .status .Conflict _ => true
  | _ => false

/-- The HTTP status codes the broker answers with (`http.StatusCreated`, ...). -/
inductive Status where
  | Created
  | OK
  | BadRequest
  | Forbidden
  | InternalServerError
deriving DecidableEq, Repr

/-- The value of `credentials`: the entries `"services"` and `"secrets"`. -/
structure Credentials where
  services : StringMap
  secrets : StringMap
deriving DecidableEq, Repr

/-- An `api.BindResponse`. -/
structure BindResponse where
  credentials : Credentials
deriving DecidableEq, Repr

/-- An `api.Response`: status code, body and error. -/
structure Response where
  code : Status
  body : Option BindResponse
  err : Option Error
deriving DecidableEq, Repr

/-- Modelled from the spec: the constructors of package `api` are not part of
the sources; a response is a status plus a credential body on success or an
error body otherwise.  This one is `api.NewResponse`. -/
def NewResponse (code : Status) (body : Option BindResponse) (err : Option Error) :
    Response :=
  ⟨code, body, err⟩

/-- Modelled from the spec: `api.BadRequest`, an error response of status
BadRequest. -/
def BadRequest (err : Error) : Response := NewResponse .BadRequest none (some err)

/-- Modelled from the spec: `api.Forbidden`, an error response of status
Forbidden that carries the reason unchanged. -/
def Forbidden (err : Error) : Response := NewResponse .Forbidden none (some err)

/-- Modelled from the spec: `api.InternalServerError`, an error response of
status InternalServerError. -/
def InternalServerError (err : Error) : Response :=
  NewResponse .InternalServerError none (some err)

/-- How a call ends: it returns a response, or it stops with a run-time
panic. -/
inductive Result where
  | response (r : Response)
  | panicked
deriving DecidableEq, Repr

/-! ## The resource store and the authorizer -/

/-- The state of the resource store: the objects of the four kinds the broker
touches. -/
structure Cluster where
  brokerTemplateInstances : List BrokerTemplateInstance
  templateInstances : List TemplateInstance
  services : List Service
  secrets : List Secret
deriving DecidableEq, Repr

/-- The operations of the store that `Bind` calls. -/
inductive Op where
  | getBrokerTemplateInstance
  | getTemplateInstance
  | listServices
  | listSecrets
  | updateBrokerTemplateInstance
deriving DecidableEq, Repr

/-- A call made by `Bind`, with its arguments; the trace of a run is the list of
its calls in order. -/
inductive Call where
  | getBrokerTemplateInstance (name : String)
  | authorize (u : User) (attrs : ResourceAttributes)
  | getTemplateInstance (ns name : String)
  | listServices (ns instanceID : String)
  | listSecrets (ns instanceID : String)
  | updateBrokerTemplateInstance (obj : BrokerTemplateInstance)
deriving DecidableEq, Repr

/-- Everything outside the broker: the store state, the authorization oracle
(`util.Authorize`, which answers `nil` or an error), and for every store
operation the error, if any, with which the call fails regardless of the state
(a transport failure, a concurrent writer, ...). -/
structure World where
  cluster : Cluster
  authorize : User → ResourceAttributes → Option Error
  fault : Op → Option Error

namespace Cluster

/-- The stored broker instance record of a given name. -/
def findBrokerTemplateInstance (c : Cluster) (name : String) :
    Option BrokerTemplateInstance :=
  c.brokerTemplateInstances.find? (fun r => r.name == name)

/-- The stored template instance of a given namespace and name. -/
def findTemplateInstance (c : Cluster) (ns name : String) : Option TemplateInstance :=
  c.templateInstances.find? (fun t => t.ns == ns && t.name == name)

end Cluster

/-- The stored list in which the first record called like `obj` is `obj`. -/
def replaceRecord (obj : BrokerTemplateInstance) :
    List BrokerTemplateInstance → List BrokerTemplateInstance
  | [] => []
  | r :: rest => if r.name == obj.name then obj :: rest else r :: replaceRecord obj rest

namespace World

/-- Modelled from the spec: the store is an external collaborator,
`get(kind, namespace, name) -> object | NotFound`. -/
def getBrokerTemplateInstance (w : World) (name : String) :
    Except Error BrokerTemplateInstance :=
  match w.fault .getBrokerTemplateInstance with
  | some err => .error err
  | none =>
    match w.cluster.findBrokerTemplateInstance name with
    | some r => .ok r
    | none => .error (.status .NotFound ("brokertemplateinstances not found: " ++ name))

/-- Modelled from the spec: the store is an external collaborator,
`get(kind, namespace, name) -> object | NotFound`. -/
def getTemplateInstance (w : World) (ns name : String) : Except Error TemplateInstance :=
  match w.fault .getTemplateInstance with
  | some err => .error err
  | none =>
    match w.cluster.findTemplateInstance ns name with
    | some t => .ok t
    | none => .error (.status .NotFound ("templateinstances not found: " ++ name))

/-- Modelled from the spec: the store is an external collaborator,
`list(kind, namespace, labelSelector) -> []object`; the selector asks for the
instance label to equal the instance ID. -/
def listServices (w : World) (imp : Imports) (ns instanceID : String) :
    Except Error (List Service) :=
  match w.fault .listServices with
  | some err => .error err
  | none =>
    .ok (w.cluster.services.filter (fun s =>
      s.ns == ns && s.labels.get imp.TemplateInstanceLabel == some instanceID))

/-- Modelled from the spec: the store is an external collaborator,
`list(kind, namespace, labelSelector) -> []object`; the selector asks for the
instance label to equal the instance ID. -/
def listSecrets (w : World) (imp : Imports) (ns instanceID : String) :
    Except Error (List Secret) :=
  match w.fault .listSecrets with
  | some err => .error err
  | none =>
    .ok (w.cluster.secrets.filter (fun s =>
      s.ns == ns && s.labels.get imp.TemplateInstanceLabel == some instanceID))

/-- Modelled from the spec: the store is an external collaborator,
`update(object-with-version) -> object | Conflict`: the write is conditional on
the resource version of the submitted object being the stored one, and the
stored object gets a new version. -/
def updateBrokerTemplateInstance (w : World) (obj : BrokerTemplateInstance) :
    Except Error (BrokerTemplateInstance × Cluster) :=
  match w.fault .updateBrokerTemplateInstance with
  | some err => .error err
  | none =>
    match w.cluster.findBrokerTemplateInstance obj.name with
    | none => .error (.status .NotFound ("brokertemplateinstances not found: " ++ obj.name))
    | some stored =>
      if stored.resourceVersion ≠ obj.resourceVersion then
        .error (.status .Conflict ("the object has been modified: " ++ obj.name))
      else
        let obj' := { obj with resourceVersion := obj.resourceVersion + 1 }
        .ok (obj', { w.cluster with
          brokerTemplateInstances := replaceRecord obj' w.cluster.brokerTemplateInstances })

end World

/-! ## `getServices`, `getSecrets` and `Bind` -/

/-- The constant `kapi.GroupName`, the core API group. -/
def kapiGroupName : String := ""

/-- The attributes of the access review made by `getServices`. -/
def servicesListAttributes (ns : String) : ResourceAttributes :=
  ⟨ns, "list", kapiGroupName, "services"⟩

/-- The attributes of the access review made by `getSecrets`. -/
def secretsListAttributes (ns : String) : ResourceAttributes :=
  ⟨ns, "list", kapiGroupName, "secrets"⟩

/-- The attributes of the access review made by `Bind` itself. -/
def templateInstancesGetAttributes (imp : Imports) (ns : String) : ResourceAttributes :=
  ⟨ns, "get", imp.TemplateGroupName, "templateinstances"⟩

/-- Embedding of `getServices`.  The first component is the map (`.ok`), or the
way the call ends early (`.error`): with a response, or with the panic of
dereferencing the `nil` requirement; the second is the trace of the calls. -/
def getServices (imp : Imports) (w : World) (u : User) (ns instanceID : String) :
    Except Result StringMap × List Call :=
  let attrs := servicesListAttributes ns
  match w.authorize u attrs with
  | some err => (.error (.response (Forbidden err)), [.authorize u attrs])
  | none =>
    if !imp.NewRequirementOK instanceID then
      (.error .panicked, [.authorize u attrs])
    else
      match w.listServices imp ns instanceID with
      | .error err =>
        if IsForbidden err then
          (.error (.response (Forbidden err)),
            [.authorize u attrs, .listServices ns instanceID])
        else
          (.error (.response (InternalServerError err)),
            [.authorize u attrs, .listServices ns instanceID])
      | .ok items =>
        match renderServices imp items with
        | none => (.error .panicked, [.authorize u attrs, .listServices ns instanceID])
        | some services => (.ok services, [.authorize u attrs, .listServices ns instanceID])

/-- Embedding of `getSecrets`, with the conventions of `getServices`. -/
def getSecrets (imp : Imports) (w : World) (u : User) (ns instanceID : String) :
    Except Result StringMap × List Call :=
  let attrs := secretsListAttributes ns
  match w.authorize u attrs with
  | some err => (.error (.response (Forbidden err)), [.authorize u attrs])
  | none =>
    if !imp.NewRequirementOK instanceID then
      (.error .panicked, [.authorize u attrs])
    else
      match w.listSecrets imp ns instanceID with
      | .error err =>
        if IsForbidden err then
          (.error (.response (Forbidden err)),
            [.authorize u attrs, .listSecrets ns instanceID])
        else
          (.error (.response (InternalServerError err)),
            [.authorize u attrs, .listSecrets ns instanceID])
      | .ok items =>
        (.ok (renderSecrets items), [.authorize u attrs, .listSecrets ns instanceID])

/-- The loop of lines 188-194: `OK` when `bindingID` is among the recorded
binding IDs, `Created` otherwise. -/
def bindingStatus (bindingID : String) : List String → Status
  | [] => .Created
  | id :: rest => if id = bindingID then .OK else bindingStatus bindingID rest

/-- What a run of `Bind` leaves behind: how it ended, the store state after it,
and the calls it made. -/
structure Outcome where
  result : Result
  cluster : Cluster
  trace : List Call
deriving DecidableEq, Repr

/-- Embedding of `Bind`. -/
def Bind (imp : Imports) (w : World) (instanceID bindingID : String) (breq : BindRequest) :
    Outcome :=
  if (imp.ValidateBindRequest breq).length > 0 then
    ⟨.response (BadRequest (.aggregate (imp.ValidateBindRequest breq))), w.cluster, []⟩
  else if breq.parameters.length ≠ 1 then
    ⟨.response (BadRequest (.new "parameters not supported on bind")), w.cluster, []⟩
  else
    let impersonate := breq.parameters.index imp.RequesterUsernameParameterKey
    let u : User := ⟨impersonate⟩
    let t1 := [Call.getBrokerTemplateInstance instanceID]
    match w.getBrokerTemplateInstance instanceID with
    | .error err =>
      if IsNotFound err then ⟨.response (BadRequest err), w.cluster, t1⟩
      else ⟨.response (InternalServerError err), w.cluster, t1⟩
    | .ok brokerTemplateInstance =>
      let ns := brokerTemplateInstance.templateInstanceNamespace
      let t2 := t1 ++ [Call.authorize u (templateInstancesGetAttributes imp ns)]
      match w.authorize u (templateInstancesGetAttributes imp ns) with
      | some err => ⟨.response (Forbidden err), w.cluster, t2⟩
      | none =>
        let t3 := t2 ++
          [Call.getTemplateInstance ns brokerTemplateInstance.templateInstanceName]
        match w.getTemplateInstance ns brokerTemplateInstance.templateInstanceName with
        | .error err => ⟨.response (InternalServerError err), w.cluster, t3⟩
        | .ok templateInstance =>
          if breq.serviceID ≠ templateInstance.templateUID then
            ⟨.response (BadRequest (.new "service_id does not match provisioned service")),
              w.cluster, t3⟩
          else
            match getServices imp w u ns instanceID with
            | (.error res, c4) => ⟨res, w.cluster, t3 ++ c4⟩
            | (.ok services, c4) =>
              match getSecrets imp w u ns instanceID with
              | (.error res, c5) => ⟨res, w.cluster, t3 ++ c4 ++ c5⟩
              | (.ok secrets, c5) =>
                let credentials : Credentials := ⟨services, secrets⟩
                let status := bindingStatus bindingID brokerTemplateInstance.bindingIDs
                if status = .Created then
                  let obj := { brokerTemplateInstance with
                    bindingIDs := brokerTemplateInstance.bindingIDs ++ [bindingID] }
                  let t6 := t3 ++ c4 ++ c5 ++ [Call.updateBrokerTemplateInstance obj]
                  match w.updateBrokerTemplateInstance obj with
                  | .error err => ⟨.response (InternalServerError err), w.cluster, t6⟩
                  | .ok (_, cluster) =>
                    ⟨.response (NewResponse status (some ⟨credentials⟩) none), cluster, t6⟩
                else
                  ⟨.response (NewResponse status (some ⟨credentials⟩) none), w.cluster,
                    t3 ++ c4 ++ c5⟩

/-- The number of update attempts in a trace. -/
def updateAttempts (trace : List Call) : Nat :=
  (trace.filter (fun c => match c with
    | .updateBrokerTemplateInstance _ => true
    | _ => false)).length

/-- The number of fetches of the broker instance record in a trace. -/
def fetchAttempts (trace : List Call) : Nat :=
  (trace.filter (fun c => match c with
    | .getBrokerTemplateInstance _ => true
    | _ => false)).length

/-- A concrete store: instance `abc` provisioned in namespace `ns`, with one
service and one basic-auth secret carrying the instance label. -/
def demoCluster : Cluster where
  brokerTemplateInstances := [⟨"abc", 7, "ns", "ti", ["b0"]⟩]
  templateInstances := [⟨"ti", "ns", "uid-1"⟩]
  services := [⟨"db", "ns", [("template.openshift.io/template-instance", "abc")],
    "10.0.0.5", [⟨"client", 5432⟩]⟩]
  secrets := [⟨"db-cred", "ns", [("template.openshift.io/template-instance", "abc")],
    SecretTypeBasicAuth, [("username", "u"), ("password", "p")]⟩]

/-- A world over `demoCluster` in which every access is allowed and no call
fails. -/
def demoWorld : World where
  cluster := demoCluster
  authorize := fun _ _ => none
  fault := fun _ => none

/-- A bind request for the service of `demoCluster`, on behalf of `alice`. -/
def demoRequest : BindRequest where
  serviceID := "uid-1"
  planID := "plan"
  parameters := [("template.openshift.io/requester-username", "alice")]

/-! ## The entries the rendering loops are meant to write -/

/-- A service the loop of `getServices` does not skip: it has a routable
address and at least one port. -/
def usable (imp : Imports) (service : Service) : Bool :=
  imp.IsServiceIPSet service && !service.ports.isEmpty

/-- The key of a named port of a service. -/
def namedPortKey (service : Service) (port : ServicePort) : String :=
  makeEnvVariableName service.name ++ "_SERVICE_PORT" ++ "_" ++ makeEnvVariableName port.name

/-- The entries of the named ports of a service, in the order of the ports. -/
def namedPortEntries (service : Service) (ports : List ServicePort) : StringMap :=
  (ports.filter (fun p => p.name != "")).map
    (fun p => (namedPortKey service p, Itoa p.port))

/-- The entries a usable service stands for, in the order in which they are
written: host, first port, named ports. -/
def serviceEntries (service : Service) : StringMap :=
  match service.ports with
  | [] => []
  | first :: _ =>
    (makeEnvVariableName service.name ++ "_SERVICE_HOST", service.clusterIP) ::
    (makeEnvVariableName service.name ++ "_SERVICE_PORT", Itoa first.port) ::
    namedPortEntries service service.ports

/-- The keys written for the usable services of a list. -/
def emittedKeys (imp : Imports) (items : List Service) : List String :=
  StringMap.keys ((items.filter (usable imp)).flatMap serviceEntries)

/-- The entries a basic-auth secret stands for. -/
def secretEntries (secret : Secret) : StringMap :=
  [(makeEnvVariableName secret.name ++ "_USERNAME", secret.data.index BasicAuthUsernameKey),
   (makeEnvVariableName secret.name ++ "_PASSWORD", secret.data.index BasicAuthPasswordKey)]

/-- The secrets of the basic-auth shape. -/
def basicAuthSecrets (items : List Secret) : List Secret :=
  items.filter (fun s => s.type == SecretTypeBasicAuth)

/-- The successive assignment of a list of entries to a map. -/
def assignAll (m : StringMap) (entries : StringMap) : StringMap :=
  entries.foldl (fun acc kv => acc.set kv.1 kv.2) m

/-! ## Reading an outcome -/

/-- The status code of the response, if the call returned one. -/
def Result.code : Result → Option Status
  | .response r => some r.code
  | .panicked => none

/-- The credential payload of the response, if there is one. -/
def Result.credentials : Result → Option Credentials
  | .response r => r.body.map (fun body => body.credentials)
  | .panicked => none

/-- Modelled from the spec: `ValidateBindRequest` is not part of the sources.
The shape validation of the instance resolver asks for the entry of the
parameter map to be the recognized impersonation key; the validator reports an
error when the map has no entry for that key. -/
def ValidateBindRequest (key : String) (breq : BindRequest) : List String :=
  if (breq.parameters.get key).isSome then []
  else ["parameters." ++ key ++ ": Required value"]

/-- The imported declarations, with `ValidateBindRequest` as modelled from the
spec. -/
def withSpecValidation (imp : Imports) : Imports :=
  { imp with ValidateBindRequest := ValidateBindRequest imp.RequesterUsernameParameterKey }

/-- A bind request without parameters. -/
def noParameterRequest : BindRequest where
  serviceID := "uid-1"
  planID := "plan"
  parameters := []

/-- A bind request whose only parameter is not the impersonation key. -/
def foreignParameterRequest : BindRequest where
  serviceID := "uid-1"
  planID := "plan"
  parameters := [("colour", "blue")]

/-- A bind request of `alice` whose service ID is not the UID of the
provisioned template. -/
def mismatchedRequest : BindRequest where
  serviceID := "uid-2"
  planID := "plan"
  parameters := [("template.openshift.io/requester-username", "alice")]

/-- The world `demoWorld` in which `alice` may not list secrets. -/
def secretsDeniedWorld : World where
  cluster := demoCluster
  authorize := fun _ attrs =>
    if attrs.resource = "secrets" then
      some (.status .Forbidden "user alice cannot list secrets in project ns")
    else none
  fault := fun _ => none

/-- The world `demoWorld` in which the update of the broker instance record
meets a version conflict. -/
def conflictWorld : World where
  cluster := demoCluster
  authorize := fun _ _ => none
  fault := fun op =>
    if op = .updateBrokerTemplateInstance then
      some (.status .Conflict "the object has been modified")
    else none

/-! ## Concrete lists used in examples -/

/-- The endpoint resource `db` with address `10.0.0.5` and the port 5432 named
`client`. -/
def dbService : Service :=
  ⟨"db", "ns", [("template.openshift.io/template-instance", "abc")], "10.0.0.5",
    [⟨"client", 5432⟩]⟩

/-- The basic-auth credential resource `db-cred` with username `u` and password
`p`. -/
def dbCredSecret : Secret :=
  ⟨"db-cred", "ns", [("template.openshift.io/template-instance", "abc")],
    SecretTypeBasicAuth, [("username", "u"), ("password", "p")]⟩

/-- Two endpoint resources of one instance: the service `x-service-port` with an
unnamed port, followed by the service `x` whose port is named `service-host`. -/
def clashingServices : List Service :=
  [⟨"x-service-port", "ns", [("template.openshift.io/template-instance", "abc")],
     "10.0.0.1", [⟨"", 80⟩]⟩,
   ⟨"x", "ns", [("template.openshift.io/template-instance", "abc")],
     "10.0.0.2", [⟨"service-host", 8080⟩]⟩]

/-! ## Lemmas on maps and strings -/

theorem StringMap.get_set_self (m : StringMap) (k v : String) :
    (m.set k v).get k = some v := by
  induction m with
  | nil => simp [StringMap.set, StringMap.get]
  | cons e rest ih =>
    obtain ⟨k', v'⟩ := e
    by_cases h : k' = k
    · simp [StringMap.set, StringMap.get, h]
    · simp [StringMap.set, StringMap.get, h, ih]

theorem StringMap.get_set_other (m : StringMap) (k k' v : String) (h : k' ≠ k) :
    (m.set k' v).get k = m.get k := by
  induction m with
  | nil => simp [StringMap.set, StringMap.get, h]
  | cons e rest ih =>
    obtain ⟨k₀, v₀⟩ := e
    by_cases h₀ : k₀ = k'
    · subst h₀
      simp [StringMap.set, StringMap.get, h]
    · by_cases h₁ : k₀ = k
      · subst h₁
        simp [StringMap.set, StringMap.get, h₀]
      · simp [StringMap.set, StringMap.get, h₀, h₁, ih]

theorem StringMap.set_fresh (m : StringMap) (k v : String) (h : k ∉ m.keys) :
    m.set k v = m ++ [(k, v)] := by
  induction m with
  | nil => rfl
  | cons e rest ih =>
    obtain ⟨k', v'⟩ := e
    simp only [StringMap.keys, List.map_cons, List.mem_cons, not_or] at h
    have h' : ¬ k' = k := fun e => h.1 e.symm
    simp [StringMap.set, h', ih (by simpa [StringMap.keys] using h.2)]

theorem assignAll_append (m e₁ e₂ : StringMap) :
    assignAll m (e₁ ++ e₂) = assignAll (assignAll m e₁) e₂ := by
  simp [assignAll, List.foldl_append]

theorem get_assignAll_of_not_mem (entries m : StringMap) (k : String)
    (h : k ∉ entries.keys) : (assignAll m entries).get k = m.get k := by
  induction entries generalizing m with
  | nil => rfl
  | cons e rest ih =>
    obtain ⟨k', v'⟩ := e
    simp only [StringMap.keys, List.map_cons, List.mem_cons, not_or] at h
    have : assignAll m ((k', v') :: rest) = assignAll (m.set k' v') rest := rfl
    rw [this, ih _ (by simpa [StringMap.keys] using h.2)]
    exact StringMap.get_set_other m k k' v' (fun e => h.1 e.symm)

/-- The value of a key after a sequence of assignments is that of the last
assignment to the key. -/
theorem get_assignAll_last (m before after : StringMap) (k v : String)
    (h : k ∉ after.keys) :
    (assignAll m (before ++ (k, v) :: after)).get k = some v := by
  rw [assignAll_append]
  have : assignAll (assignAll m before) ((k, v) :: after)
      = assignAll ((assignAll m before).set k v) after := rfl
  rw [this, get_assignAll_of_not_mem after _ k h]
  exact StringMap.get_set_self _ k v

/-- Assigning entries with pairwise distinct keys, none of them present yet,
appends the entries. -/
theorem assignAll_of_nodup (entries m : StringMap)
    (h : (m ++ entries).keys.Nodup) : assignAll m entries = m ++ entries := by
  induction entries generalizing m with
  | nil => simp [assignAll]
  | cons e rest ih =>
    obtain ⟨k, v⟩ := e
    have hk : k ∉ m.keys := by
      simp only [StringMap.keys, List.map_append, List.map_cons] at h
      have := (List.nodup_append.mp h).2.2
      intro hmem
      exact this hmem (List.mem_cons_self _ _)
    have : assignAll m ((k, v) :: rest) = assignAll (m.set k v) rest := rfl
    rw [this, StringMap.set_fresh m k v hk, ih]
    · simp
    · simpa using h

theorem makeEnvVariableName_append (a b : String) :
    makeEnvVariableName (a ++ b) = makeEnvVariableName a ++ makeEnvVariableName b := by
  apply String.ext
  simp [makeEnvVariableName, String.data_append]

theorem append_right_cancel_string {a b s : String} (h : a ++ s = b ++ s) : a = b := by
  apply String.ext
  have := congrArg String.data h
  simpa [String.data_append] using this

theorem append_left_cancel_string {a b s : String} (h : s ++ a = s ++ b) : a = b := by
  apply String.ext
  have := congrArg String.data h
  simpa [String.data_append] using this

theorem username_key_ne_password_key (a b : String) :
    a ++ "_USERNAME" ≠ b ++ "_PASSWORD" := by
  intro h
  have h₁ := congrArg String.data h
  simp only [String.data_append] at h₁
  have h₂ := (List.append_inj' h₁ (by decide)).2
  exact absurd h₂ (by decide)

/-! ## The rendering loops write the expected entries -/

theorem foldl_portStep (service : Service) (ports : List ServicePort) (m : StringMap) :
    ports.foldl (portStep (makeEnvVariableName service.name ++ "_SERVICE_PORT")) m
      = assignAll m (namedPortEntries service ports) := by
  induction ports generalizing m with
  | nil => rfl
  | cons p rest ih =>
    by_cases hp : p.name = ""
    · simp [List.foldl_cons, portStep, hp, ih, namedPortEntries]
    · simp [List.foldl_cons, portStep, hp, ih, namedPortEntries, assignAll, namedPortKey]

theorem serviceStep_of_usable (imp : Imports) (m : StringMap) (service : Service)
    (h : usable imp service = true) :
    serviceStep imp m service = some (assignAll m (serviceEntries service)) := by
  unfold usable at h
  simp only [Bool.and_eq_true, Bool.not_eq_true', List.isEmpty_eq_false] at h
  obtain ⟨hip, hports⟩ := h
  cases hp : service.ports with
  | nil => simp [hp] at hports
  | cons first rest =>
    have hfold := foldl_portStep service service.ports
    simp only [hp] at hfold
    simp [serviceStep, hip, hp, serviceEntries, hfold, assignAll]

theorem serviceStep_of_not_usable (imp : Imports) (m : StringMap) (service : Service)
    (h : usable imp service = false) : serviceStep imp m service = some m := by
  unfold usable at h
  cases hip : imp.IsServiceIPSet service with
  | false => simp [serviceStep, hip]
  | true =>
    simp only [hip, Bool.true_and, Bool.not_eq_false', List.isEmpty_iff] at h
    simp [serviceStep, h]

theorem renderServicesFrom_eq (imp : Imports) (items : List Service) (m : StringMap) :
    renderServicesFrom imp m items
      = some (assignAll m ((items.filter (usable imp)).flatMap serviceEntries)) := by
  induction items generalizing m with
  | nil => rfl
  | cons service rest ih =>
    cases h : usable imp service with
    | false =>
      simp [renderServicesFrom, serviceStep_of_not_usable imp m service h, ih, h]
    | true =>
      simp [renderServicesFrom, serviceStep_of_usable imp m service h, ih, h,
        assignAll_append]

theorem secret_key_username (name : String) :
    makeEnvVariableName (name ++ "_" ++ BasicAuthUsernameKey)
      = makeEnvVariableName name ++ "_USERNAME" := by
  rw [makeEnvVariableName_append, makeEnvVariableName_append, String.append_assoc]
  rfl

theorem secret_key_password (name : String) :
    makeEnvVariableName (name ++ "_" ++ BasicAuthPasswordKey)
      = makeEnvVariableName name ++ "_PASSWORD" := by
  rw [makeEnvVariableName_append, makeEnvVariableName_append, String.append_assoc]
  rfl

theorem secretStep_eq (m : StringMap) (secret : Secret) :
    secretStep m secret
      = if secret.type = SecretTypeBasicAuth then assignAll m (secretEntries secret)
        else m := by
  by_cases h : secret.type = SecretTypeBasicAuth
  · simp [secretStep, h, secret_key_username, secret_key_password, secretEntries, assignAll]
  · simp [secretStep, h]

theorem foldl_secretStep (items : List Secret) (m : StringMap) :
    items.foldl secretStep m
      = assignAll m ((basicAuthSecrets items).flatMap secretEntries) := by
  induction items generalizing m with
  | nil => rfl
  | cons secret rest ih =>
    by_cases h : secret.type = SecretTypeBasicAuth
    · simp [List.foldl_cons, secretStep_eq, h, ih, basicAuthSecrets, assignAll_append]
    · simp [List.foldl_cons, secretStep_eq, h, ih, basicAuthSecrets]

theorem secretEntries_keys_nodup (items : List Secret)
    (h : (items.map (fun s => makeEnvVariableName s.name)).Nodup) :
    (StringMap.keys (items.flatMap secretEntries)).Nodup := by
  induction items with
  | nil => simp [StringMap.keys]
  | cons secret rest ih =>
    simp only [List.map_cons, List.nodup_cons] at h
    have hrest := ih h.2
    have hfresh : ∀ k ∈ StringMap.keys (rest.flatMap secretEntries),
        k ≠ makeEnvVariableName secret.name ++ "_USERNAME" ∧
        k ≠ makeEnvVariableName secret.name ++ "_PASSWORD" := by
      intro k hk
      simp only [StringMap.keys, List.map_flatMap, List.mem_flatMap, secretEntries,
        List.map_cons, List.map_nil, List.mem_cons, List.mem_singleton,
        List.not_mem_nil, or_false] at hk
      obtain ⟨s, hs, hk⟩ := hk
      have hne : makeEnvVariableName s.name ≠ makeEnvVariableName secret.name := by
        intro e
        exact h.1 (List.mem_map.mpr ⟨s, hs, e⟩)
      rcases hk with hk | hk
      · subst hk
        exact ⟨fun e => hne (append_right_cancel_string e),
          username_key_ne_password_key _ _⟩
      · subst hk
        exact ⟨fun e => username_key_ne_password_key _ _ e.symm,
          fun e => hne (append_right_cancel_string e)⟩
    simp only [StringMap.keys, List.flatMap_cons, List.map_append, secretEntries,
      List.map_cons, List.map_nil, List.cons_append, List.nil_append, List.nodup_cons,
      List.mem_cons]
    refine ⟨?_, ?_, ?_⟩
    · intro hmem
      rcases hmem with e | hmem
      · exact username_key_ne_password_key _ _ e
      · exact (hfresh _ hmem).1 rfl
    · intro hmem
      exact (hfresh _ hmem).2 rfl
    · exact hrest

theorem host_key_ne_port_key (n : String) :
    n ++ "_SERVICE_HOST" ≠ n ++ "_SERVICE_PORT" := by
  intro h
  exact absurd (append_left_cancel_string h) (by decide)

theorem host_key_ne_named_key (n x : String) :
    n ++ "_SERVICE_HOST" ≠ n ++ "_SERVICE_PORT" ++ "_" ++ x := by
  intro h
  have := congrArg String.length h
  simp only [String.length_append] at this
  have h₁ : "_SERVICE_HOST".length = 13 := by decide
  have h₂ : "_SERVICE_PORT".length = 13 := by decide
  have h₃ : "_".length = 1 := by decide
  omega

theorem port_key_ne_named_key (n x : String) :
    n ++ "_SERVICE_PORT" ≠ n ++ "_SERVICE_PORT" ++ "_" ++ x := by
  intro h
  have := congrArg String.length h
  simp only [String.length_append] at this
  have h₃ : "_".length = 1 := by decide
  omega

theorem mem_namedPortEntries_keys (service : Service) (ports : List ServicePort)
    (k : String) (h : k ∈ StringMap.keys (namedPortEntries service ports)) :
    ∃ p, k = namedPortKey service p := by
  simp only [StringMap.keys, namedPortEntries, List.map_map, List.mem_map] at h
  obtain ⟨p, _, hp⟩ := h
  exact ⟨p, hp.symm⟩

theorem namedPortEntries_split (service : Service) (before after : List ServicePort)
    (p : ServicePort) (hp : p.name ≠ "") :
    namedPortEntries service (before ++ p :: after)
      = namedPortEntries service before
        ++ (namedPortKey service p, Itoa p.port) :: namedPortEntries service after := by
  simp [namedPortEntries, List.filter_append, List.filter_cons, hp]

theorem usable_iff (imp : Imports) (service : Service) :
    usable imp service = true ↔ imp.IsServiceIPSet service = true ∧ service.ports ≠ [] := by
  simp [usable]

theorem entries_split (imp : Imports) (pre post : List Service) (r : Service)
    (h : usable imp r = true) :
    ((pre ++ r :: post).filter (usable imp)).flatMap serviceEntries
      = (pre.filter (usable imp)).flatMap serviceEntries
        ++ (serviceEntries r ++ (post.filter (usable imp)).flatMap serviceEntries) := by
  simp [List.filter_append, List.filter_cons, h, List.flatMap_append]

/-! ## Endpoint and credential rendering -/

/-- C8 (as stated, refuted): in the list `clashingServices` the first resource
has a routable address and a port, yet its host key `X_SERVICE_PORT_SERVICE_HOST`
is not mapped to its address `10.0.0.1`: the named port `service-host` of the
second resource `x` is written to the same key afterwards, so the key holds
`8080`. -/
theorem getServices_host_key_overwritten :
    (⟨"x-service-port", "ns", [("template.openshift.io/template-instance", "abc")],
      "10.0.0.1", [⟨"", 80⟩]⟩ : Service) ∈ clashingServices ∧
    originImports.IsServiceIPSet
      ⟨"x-service-port", "ns", [("template.openshift.io/template-instance", "abc")],
        "10.0.0.1", [⟨"", 80⟩]⟩ = true ∧
    makeEnvVariableName "x-service-port" ++ "_SERVICE_HOST" = "X_SERVICE_PORT_SERVICE_HOST" ∧
    renderServices originImports clashingServices
      = some [("X_SERVICE_PORT_SERVICE_HOST", "8080"), ("X_SERVICE_PORT_SERVICE_PORT", "80"),
          ("X_SERVICE_HOST", "10.0.0.2"), ("X_SERVICE_PORT", "8080")] ∧
    StringMap.get [("X_SERVICE_PORT_SERVICE_HOST", "8080"),
        ("X_SERVICE_PORT_SERVICE_PORT", "80"), ("X_SERVICE_HOST", "10.0.0.2"),
        ("X_SERVICE_PORT", "8080")]
      (makeEnvVariableName "x-service-port" ++ "_SERVICE_HOST") ≠ some "10.0.0.1" :=
  ⟨by decide, by decide, by decide, by decide, by decide⟩

/-- C8 (amended): for a resource `r` of the listed endpoint resources
`pre ++ r :: post` that has a routable address and at least one port, the map
built by `getServices` maps the host key to the address of `r` and the port key
to the decimal rendering of the first port of `r`, each provided no resource
later in the list writes that key; and it maps the key of every named port `p`
of `r` to the decimal value of `p`, provided neither a later port of `r` nor a
later resource writes that key. -/
theorem getServices_renders_endpoints (imp : Imports) (pre post : List Service)
    (r : Service) (hip : imp.IsServiceIPSet r = true) (hports : r.ports ≠ []) :
    ∃ m, renderServices imp (pre ++ r :: post) = some m ∧
      (makeEnvVariableName r.name ++ "_SERVICE_HOST" ∉ emittedKeys imp post →
        m.get (makeEnvVariableName r.name ++ "_SERVICE_HOST") = some r.clusterIP) ∧
      (makeEnvVariableName r.name ++ "_SERVICE_PORT" ∉ emittedKeys imp post →
        ∃ first, r.ports[0]? = some first ∧
          m.get (makeEnvVariableName r.name ++ "_SERVICE_PORT") = some (Itoa first.port)) ∧
      (∀ before p after, r.ports = before ++ p :: after → p.name ≠ "" →
        namedPortKey r p ∉ StringMap.keys (namedPortEntries r after) →
        namedPortKey r p ∉ emittedKeys imp post →
        m.get (makeEnvVariableName r.name ++ "_SERVICE_PORT" ++ "_"
          ++ makeEnvVariableName p.name) = some (Itoa p.port)) := by
  have hu : usable imp r = true := (usable_iff imp r).mpr ⟨hip, hports⟩
  refine ⟨_, renderServicesFrom_eq imp _ [], ?_, ?_, ?_⟩
  all_goals rw [entries_split imp pre post r hu]
  · intro hpost
    cases hp : r.ports with
    | nil => exact absurd hp hports
    | cons first rest =>
      simp only [serviceEntries, hp, List.cons_append]
      apply get_assignAll_last
      simp only [StringMap.keys, List.map_cons, List.map_append, List.mem_cons,
        List.mem_append, not_or]
      refine ⟨host_key_ne_port_key _, ?_, hpost⟩
      intro hmem
      obtain ⟨p, hk⟩ := mem_namedPortEntries_keys r _ _ hmem
      exact host_key_ne_named_key _ _ hk
  · intro hpost
    cases hp : r.ports with
    | nil => exact absurd hp hports
    | cons first rest =>
      refine ⟨first, by simp, ?_⟩
      simp only [serviceEntries, hp, List.cons_append]
      have hsplit : ∀ (a b c : StringMap) (e₁ e₂ : String × String),
          a ++ e₁ :: e₂ :: (b ++ c) = (a ++ [e₁]) ++ e₂ :: (b ++ c) := by
        intro a b c e₁ e₂
        simp
      rw [hsplit]
      apply get_assignAll_last
      simp only [StringMap.keys, List.map_append, List.mem_append, not_or]
      refine ⟨?_, hpost⟩
      intro hmem
      obtain ⟨p, hk⟩ := mem_namedPortEntries_keys r _ _ hmem
      exact port_key_ne_named_key _ _ hk
  · intro before p after hsplit hname hafter hpost
    cases hp : r.ports with
    | nil => exact absurd hp hports
    | cons first rest =>
      have hnamed : namedPortEntries r (first :: rest)
          = namedPortEntries r before
            ++ (namedPortKey r p, Itoa p.port) :: namedPortEntries r after := by
        rw [← hp, hsplit]
        exact namedPortEntries_split r before after p hname
      simp only [serviceEntries, hp, List.cons_append, hnamed]
      have hassoc : ∀ (a b c d : StringMap) (e₁ e₂ e : String × String),
          a ++ e₁ :: e₂ :: (b ++ e :: c ++ d) = (a ++ e₁ :: e₂ :: b) ++ e :: (c ++ d) := by
        intro a b c d e₁ e₂ e
        simp
      rw [hassoc]
      apply get_assignAll_last
      simp only [StringMap.keys, List.map_append, List.mem_append, not_or]
      exact ⟨hafter, hpost⟩

/-- Witness of C8 (amended), which is the scenario of the claim: the single
resource `db` with address `10.0.0.5` and port 5432 named `client` yields exactly
`DB_SERVICE_HOST`, `DB_SERVICE_PORT` and `DB_SERVICE_PORT_CLIENT`. -/
theorem getServices_renders_endpoints_witness :
    originImports.IsServiceIPSet dbService = true ∧ dbService.ports ≠ [] ∧
    renderServices originImports [dbService]
      = some [("DB_SERVICE_HOST", "10.0.0.5"), ("DB_SERVICE_PORT", "5432"),
          ("DB_SERVICE_PORT_CLIENT", "5432")] ∧
    ∃ m, renderServices originImports [dbService] = some m ∧
      m.get "DB_SERVICE_HOST" = some "10.0.0.5" ∧
      m.get "DB_SERVICE_PORT_CLIENT" = some "5432" := by
  obtain ⟨m, hm, hhost, _, hnamed⟩ :=
    getServices_renders_endpoints originImports [] [] dbService (by decide) (by decide)
  exact ⟨by decide, by decide, by decide, m, hm, hhost (by decide),
    hnamed [] ⟨"client", 5432⟩ [] rfl (by decide) (by decide) (by decide)⟩

/-- C10: on every list of endpoint resources the loop of `getServices` ends
without a panic (the access `Ports[0]` is only made on a non-empty port list),
and it returns the map it returns on the list without the resources that lack a
routable address or have no port; on such a resource an iteration leaves the map
as it is. -/
theorem getServices_skips_unusable (imp : Imports) (items : List Service) :
    (∃ m, renderServices imp items = some m ∧
      renderServices imp (items.filter (usable imp)) = some m) ∧
    (∀ m service, serviceStep imp m service ≠ none) ∧
    (∀ m service, (imp.IsServiceIPSet service = false ∨ service.ports = []) →
      serviceStep imp m service = some m) := by
  refine ⟨⟨_, renderServicesFrom_eq imp items [], ?_⟩, ?_, ?_⟩
  · rw [renderServices, renderServicesFrom_eq, List.filter_filter]
    simp
  · intro m service
    cases h : usable imp service with
    | false => simp [serviceStep_of_not_usable imp m service h]
    | true => simp [serviceStep_of_usable imp m service h]
  · intro m service h
    apply serviceStep_of_not_usable
    rcases h with h | h
    · simp [usable, h]
    · simp [usable, h]

/-- C9: when the basic-auth resources of the listed credential resources have
pairwise distinct normalized names, the map built by `getSecrets` consists of
exactly the entries `NAME_USERNAME -> username` and `NAME_PASSWORD -> password`
of the basic-auth resources (its keys are pairwise distinct, and resources of
another shape add nothing); the keys the code forms by normalizing
`name + "_username"` and `name + "_password"` are the normalized name followed by
`_USERNAME` and `_PASSWORD`. -/
theorem getSecrets_renders_basic_auth (items : List Secret)
    (h : ((basicAuthSecrets items).map (fun s => makeEnvVariableName s.name)).Nodup) :
    renderSecrets items = (basicAuthSecrets items).flatMap secretEntries ∧
    (StringMap.keys (renderSecrets items)).Nodup ∧
    (∀ r ∈ items, r.type = SecretTypeBasicAuth →
      (renderSecrets items).get (makeEnvVariableName r.name ++ "_USERNAME")
        = some (r.data.index BasicAuthUsernameKey) ∧
      (renderSecrets items).get (makeEnvVariableName r.name ++ "_PASSWORD")
        = some (r.data.index BasicAuthPasswordKey)) ∧
    (∀ k v, (k, v) ∈ renderSecrets items →
      ∃ r ∈ items, r.type = SecretTypeBasicAuth ∧
        ((k = makeEnvVariableName r.name ++ "_USERNAME" ∧
            v = r.data.index BasicAuthUsernameKey) ∨
          (k = makeEnvVariableName r.name ++ "_PASSWORD" ∧
            v = r.data.index BasicAuthPasswordKey))) ∧
    (∀ name : String,
      makeEnvVariableName (name ++ "_" ++ BasicAuthUsernameKey)
        = makeEnvVariableName name ++ "_USERNAME" ∧
      makeEnvVariableName (name ++ "_" ++ BasicAuthPasswordKey)
        = makeEnvVariableName name ++ "_PASSWORD") := by
  have hnodup := secretEntries_keys_nodup (basicAuthSecrets items) h
  have heq : renderSecrets items = (basicAuthSecrets items).flatMap secretEntries := by
    rw [renderSecrets, foldl_secretStep]
    have := assignAll_of_nodup ((basicAuthSecrets items).flatMap secretEntries) []
      (by simpa using hnodup)
    simpa using this
  refine ⟨heq, heq ▸ hnodup, ?_, ?_, fun name => ⟨secret_key_username name,
    secret_key_password name⟩⟩
  · intro r hr hbasic
    have hmem : r ∈ basicAuthSecrets items := by
      simp [basicAuthSecrets, hr, hbasic]
    obtain ⟨before, after, hsplit⟩ := List.append_of_mem hmem
    have hkeys := hnodup
    rw [hsplit] at hkeys
    simp only [StringMap.keys, List.flatMap_append, List.flatMap_cons, List.map_append,
      secretEntries, List.map_cons, List.map_nil, List.cons_append, List.nil_append] at hkeys
    have hright := (List.nodup_append.mp hkeys).2.1
    simp only [List.nodup_cons, List.mem_cons, not_or] at hright
    rw [renderSecrets, foldl_secretStep, hsplit]
    simp only [List.flatMap_append, List.flatMap_cons, secretEntries, List.cons_append,
      List.nil_append]
    constructor
    · apply get_assignAll_last
      simp only [StringMap.keys, List.map_cons, List.mem_cons, not_or]
      exact ⟨hright.1.1, hright.1.2⟩
    · have hassoc : ∀ (a c : StringMap) (e₁ e₂ : String × String),
          a ++ e₁ :: e₂ :: c = (a ++ [e₁]) ++ e₂ :: c := by
        intro a c e₁ e₂
        simp
      rw [hassoc]
      apply get_assignAll_last
      exact hright.2.1
  · intro k v hkv
    rw [heq] at hkv
    simp only [List.mem_flatMap, secretEntries, List.mem_cons, Prod.mk.injEq,
      List.mem_singleton, List.not_mem_nil, or_false] at hkv
    obtain ⟨r, hr, hkv⟩ := hkv
    simp only [basicAuthSecrets, List.mem_filter, beq_iff_eq] at hr
    exact ⟨r, hr.1, hr.2, hkv⟩

/-- Witness of C9, which is the scenario of the claim: the single basic-auth
resource `db-cred` with username `u` and password `p` yields exactly
`DB_CRED_USERNAME -> u` and `DB_CRED_PASSWORD -> p`. -/
theorem getSecrets_renders_basic_auth_witness :
    renderSecrets [dbCredSecret] = [("DB_CRED_USERNAME", "u"), ("DB_CRED_PASSWORD", "p")] ∧
    renderSecrets [dbCredSecret] = (basicAuthSecrets [dbCredSecret]).flatMap secretEntries :=
  ⟨by decide, (getSecrets_renders_basic_auth [dbCredSecret] (by decide)).1⟩

/-! ## Validation of the request -/

/-- C2: a bind request whose parameter map has no entry or more than one entry
is answered with BadRequest and with no other kind of response, whatever
`ValidateBindRequest` reports; no call is made and the store is left as it
is. -/
theorem Bind_rejects_parameter_count (imp : Imports) (w : World)
    (instanceID bindingID : String) (breq : BindRequest)
    (h : breq.parameters.length = 0 ∨ 1 < breq.parameters.length) :
    (∃ err, (Bind imp w instanceID bindingID breq).result = .response (BadRequest err)) ∧
    (Bind imp w instanceID bindingID breq).result.code = some .BadRequest ∧
    (Bind imp w instanceID bindingID breq).cluster = w.cluster ∧
    (Bind imp w instanceID bindingID breq).trace = [] := by
  have hne : breq.parameters.length ≠ 1 := by omega
  by_cases hv : (imp.ValidateBindRequest breq).length > 0
  · simp [Bind, hv, Result.code, BadRequest, NewResponse]
  · simp [Bind, hv, hne, Result.code, BadRequest, NewResponse]

/-- Witness of C2: a request without parameters, under a validator that
accepts everything. -/
theorem Bind_rejects_parameter_count_witness :
    (noParameterRequest.parameters.length = 0 ∨ 1 < noParameterRequest.parameters.length) ∧
    (Bind originImports demoWorld "abc" "b1" noParameterRequest).result
      = .response (BadRequest (.new "parameters not supported on bind")) ∧
    (Bind originImports demoWorld "abc" "b1" noParameterRequest).result.code
      = some .BadRequest :=
  ⟨by decide, by decide,
    (Bind_rejects_parameter_count originImports demoWorld "abc" "b1" noParameterRequest
      (by decide)).2.1⟩

/-- C3: with `ValidateBindRequest` as modelled from the spec, a bind request
whose parameter map has exactly one entry, under a key that is not the
recognized impersonation key, is answered with BadRequest; `Bind` makes no call
at all, so no principal is built and the instance is not resolved. -/
theorem Bind_rejects_unrecognized_parameter (imp : Imports) (w : World)
    (instanceID bindingID : String) (breq : BindRequest) (key value : String)
    (hp : breq.parameters = [(key, value)])
    (hk : key ≠ imp.RequesterUsernameParameterKey) :
    (∃ err, (Bind (withSpecValidation imp) w instanceID bindingID breq).result
      = .response (BadRequest err)) ∧
    (Bind (withSpecValidation imp) w instanceID bindingID breq).result.code
      = some .BadRequest ∧
    (Bind (withSpecValidation imp) w instanceID bindingID breq).cluster = w.cluster ∧
    (Bind (withSpecValidation imp) w instanceID bindingID breq).trace = [] := by
  have hv : ((withSpecValidation imp).ValidateBindRequest breq).length > 0 := by
    simp [withSpecValidation, ValidateBindRequest, hp, StringMap.get, hk]
  simp [Bind, hv, Result.code, BadRequest, NewResponse]

/-- Witness of C3: the single parameter `colour`. -/
theorem Bind_rejects_unrecognized_parameter_witness :
    foreignParameterRequest.parameters = [("colour", "blue")] ∧
    "colour" ≠ originImports.RequesterUsernameParameterKey ∧
    (Bind (withSpecValidation originImports) demoWorld "abc" "b1"
      foreignParameterRequest).trace = [] :=
  ⟨rfl, by decide,
    (Bind_rejects_unrecognized_parameter originImports demoWorld "abc" "b1"
      foreignParameterRequest "colour" "blue" rfl (by decide)).2.2.2⟩

/-- C4: when the shape validation passes, the broker instance record is
fetched, the access review for getting the provisioning record is allowed, the
provisioning record is fetched, and the service ID of the request is not the
`Spec.Template.UID` of the provisioning record, `Bind` answers BadRequest; its
calls are the two fetches and the access review, so no endpoint or secret is
collected and the instance record is not updated. -/
theorem Bind_rejects_service_id_mismatch (imp : Imports) (w : World)
    (instanceID bindingID : String) (breq : BindRequest)
    (bti : BrokerTemplateInstance) (ti : TemplateInstance)
    (hv : imp.ValidateBindRequest breq = [])
    (hp : breq.parameters.length = 1)
    (hget : w.getBrokerTemplateInstance instanceID = .ok bti)
    (hauth : w.authorize ⟨breq.parameters.index imp.RequesterUsernameParameterKey⟩
      (templateInstancesGetAttributes imp bti.templateInstanceNamespace) = none)
    (hti : w.getTemplateInstance bti.templateInstanceNamespace bti.templateInstanceName
      = .ok ti)
    (hne : breq.serviceID ≠ ti.templateUID) :
    Bind imp w instanceID bindingID breq =
      ⟨.response (BadRequest (.new "service_id does not match provisioned service")),
        w.cluster,
        [.getBrokerTemplateInstance instanceID,
         .authorize ⟨breq.parameters.index imp.RequesterUsernameParameterKey⟩
           (templateInstancesGetAttributes imp bti.templateInstanceNamespace),
         .getTemplateInstance bti.templateInstanceNamespace bti.templateInstanceName]⟩ ∧
    (Bind imp w instanceID bindingID breq).result.code = some .BadRequest ∧
    updateAttempts (Bind imp w instanceID bindingID breq).trace = 0 := by
  have h : Bind imp w instanceID bindingID breq =
      ⟨.response (BadRequest (.new "service_id does not match provisioned service")),
        w.cluster,
        [.getBrokerTemplateInstance instanceID,
         .authorize ⟨breq.parameters.index imp.RequesterUsernameParameterKey⟩
           (templateInstancesGetAttributes imp bti.templateInstanceNamespace),
         .getTemplateInstance bti.templateInstanceNamespace bti.templateInstanceName]⟩ := by
    simp [Bind, hv, hp, hget, hauth, hti, hne]
  refine ⟨h, ?_, ?_⟩
  · rw [h]
    rfl
  · rw [h]
    rfl

/-- Witness of C4: `alice` asks for service `uid-2` on an instance provisioned
from `uid-1`. -/
theorem Bind_rejects_service_id_mismatch_witness :
    (Bind originImports demoWorld "abc" "b1" mismatchedRequest).result.code
      = some .BadRequest ∧
    updateAttempts (Bind originImports demoWorld "abc" "b1" mismatchedRequest).trace = 0 :=
  (Bind_rejects_service_id_mismatch originImports demoWorld "abc" "b1" mismatchedRequest
    ⟨"abc", 7, "ns", "ti", ["b0"]⟩ ⟨"ti", "ns", "uid-1"⟩
    (by decide) (by decide) rfl (by decide) rfl (by decide)).2

/-! ## The runs of `Bind` -/

theorem updateAttempts_append (a b : List Call) :
    updateAttempts (a ++ b) = updateAttempts a + updateAttempts b := by
  simp [updateAttempts]

theorem fetchAttempts_append (a b : List Call) :
    fetchAttempts (a ++ b) = fetchAttempts a + fetchAttempts b := by
  simp [fetchAttempts]

theorem bindingStatus_eq (bindingID : String) (ids : List String) :
    bindingStatus bindingID ids = if bindingID ∈ ids then .OK else .Created := by
  induction ids with
  | nil => rfl
  | cons id rest ih =>
    by_cases h : id = bindingID
    · simp [bindingStatus, h]
    · have h' : ¬ bindingID = id := fun e => h e.symm
      simp [bindingStatus, h, h', ih]

/-- The runs of `getServices`: denied, panicking on the requirement, failing to
list, or returning the rendered map. -/
theorem getServices_cases (imp : Imports) (w : World) (u : User) (ns instanceID : String) :
    (∃ err, w.authorize u (servicesListAttributes ns) = some err ∧
      getServices imp w u ns instanceID
        = (.error (.response (Forbidden err)), [.authorize u (servicesListAttributes ns)])) ∨
    (w.authorize u (servicesListAttributes ns) = none ∧
      imp.NewRequirementOK instanceID = false ∧
      getServices imp w u ns instanceID
        = (.error .panicked, [.authorize u (servicesListAttributes ns)])) ∨
    (∃ err, w.authorize u (servicesListAttributes ns) = none ∧
      imp.NewRequirementOK instanceID = true ∧
      w.listServices imp ns instanceID = .error err ∧
      getServices imp w u ns instanceID
        = (.error (.response (if IsForbidden err then Forbidden err
            else InternalServerError err)),
          [.authorize u (servicesListAttributes ns), .listServices ns instanceID])) ∨
    (∃ items m, w.authorize u (servicesListAttributes ns) = none ∧
      imp.NewRequirementOK instanceID = true ∧
      w.listServices imp ns instanceID = .ok items ∧
      renderServices imp items = some m ∧
      getServices imp w u ns instanceID
        = (.ok m, [.authorize u (servicesListAttributes ns), .listServices ns instanceID])) := by
  cases ha : w.authorize u (servicesListAttributes ns) with
  | some err => exact Or.inl ⟨err, rfl, by simp [getServices, ha]⟩
  | none =>
    cases hr : imp.NewRequirementOK instanceID with
    | false => exact Or.inr (Or.inl ⟨rfl, rfl, by simp [getServices, ha, hr]⟩)
    | true =>
      cases hl : w.listServices imp ns instanceID with
      | error err =>
        refine Or.inr (Or.inr (Or.inl ⟨err, rfl, rfl, rfl, ?_⟩))
        by_cases hf : IsForbidden err = true
        · simp [getServices, ha, hr, hl, hf]
        · simp [getServices, ha, hr, hl, hf]
      | ok items =>
        obtain ⟨m, hm⟩ : ∃ m, renderServices imp items = some m :=
          ⟨_, renderServicesFrom_eq imp items []⟩
        exact Or.inr (Or.inr (Or.inr ⟨items, m, rfl, rfl, rfl, hm,
          by simp [getServices, ha, hr, hl, hm]⟩))

/-- The runs of `getSecrets`, as for `getServices`. -/
theorem getSecrets_cases (imp : Imports) (w : World) (u : User) (ns instanceID : String) :
    (∃ err, w.authorize u (secretsListAttributes ns) = some err ∧
      getSecrets imp w u ns instanceID
        = (.error (.response (Forbidden err)), [.authorize u (secretsListAttributes ns)])) ∨
    (w.authorize u (secretsListAttributes ns) = none ∧
      imp.NewRequirementOK instanceID = false ∧
      getSecrets imp w u ns instanceID
        = (.error .panicked, [.authorize u (secretsListAttributes ns)])) ∨
    (∃ err, w.authorize u (secretsListAttributes ns) = none ∧
      imp.NewRequirementOK instanceID = true ∧
      w.listSecrets imp ns instanceID = .error err ∧
      getSecrets imp w u ns instanceID
        = (.error (.response (if IsForbidden err then Forbidden err
            else InternalServerError err)),
          [.authorize u (secretsListAttributes ns), .listSecrets ns instanceID])) ∨
    (∃ items, w.authorize u (secretsListAttributes ns) = none ∧
      imp.NewRequirementOK instanceID = true ∧
      w.listSecrets imp ns instanceID = .ok items ∧
      getSecrets imp w u ns instanceID
        = (.ok (renderSecrets items),
          [.authorize u (secretsListAttributes ns), .listSecrets ns instanceID])) := by
  cases ha : w.authorize u (secretsListAttributes ns) with
  | some err => exact Or.inl ⟨err, rfl, by simp [getSecrets, ha]⟩
  | none =>
    cases hr : imp.NewRequirementOK instanceID with
    | false => exact Or.inr (Or.inl ⟨rfl, rfl, by simp [getSecrets, ha, hr]⟩)
    | true =>
      cases hl : w.listSecrets imp ns instanceID with
      | error err =>
        refine Or.inr (Or.inr (Or.inl ⟨err, rfl, rfl, rfl, ?_⟩))
        by_cases hf : IsForbidden err = true
        · simp [getSecrets, ha, hr, hl, hf]
        · simp [getSecrets, ha, hr, hl, hf]
      | ok items =>
        exact Or.inr (Or.inr (Or.inr ⟨items, rfl, rfl, rfl,
          by simp [getSecrets, ha, hr, hl]⟩))

/-- What `getServices` leaves when it ends early: no success code, no
credentials; and its calls are neither fetches nor updates of the record. -/
theorem getServices_facts (imp : Imports) (w : World) (u : User) (ns instanceID : String) :
    updateAttempts (getServices imp w u ns instanceID).2 = 0 ∧
    fetchAttempts (getServices imp w u ns instanceID).2 = 0 ∧
    (∀ res, (getServices imp w u ns instanceID).1 = .error res →
      res.code ≠ some .Created ∧ res.code ≠ some .OK ∧ res.credentials = none) := by
  rcases getServices_cases imp w u ns instanceID with
    ⟨err, _, h⟩ | ⟨_, _, h⟩ | ⟨err, _, _, _, h⟩ | ⟨items, m, _, _, _, _, h⟩
  · rw [h]
    refine ⟨rfl, rfl, ?_⟩
    intro res hres
    cases hres
    simp [Result.code, Result.credentials, Forbidden, NewResponse]
  · rw [h]
    refine ⟨rfl, rfl, ?_⟩
    intro res hres
    cases hres
    simp [Result.code, Result.credentials]
  · rw [h]
    refine ⟨rfl, rfl, ?_⟩
    intro res hres
    cases hres
    by_cases hf : IsForbidden err = true <;>
      simp [hf, Result.code, Result.credentials, Forbidden, InternalServerError, NewResponse]
  · rw [h]
    refine ⟨rfl, rfl, ?_⟩
    intro res hres
    cases hres

theorem getSecrets_facts (imp : Imports) (w : World) (u : User) (ns instanceID : String) :
    updateAttempts (getSecrets imp w u ns instanceID).2 = 0 ∧
    fetchAttempts (getSecrets imp w u ns instanceID).2 = 0 ∧
    (∀ res, (getSecrets imp w u ns instanceID).1 = .error res →
      res.code ≠ some .Created ∧ res.code ≠ some .OK ∧ res.credentials = none) := by
  rcases getSecrets_cases imp w u ns instanceID with
    ⟨err, _, h⟩ | ⟨_, _, h⟩ | ⟨err, _, _, _, h⟩ | ⟨items, _, _, _, h⟩
  · rw [h]
    refine ⟨rfl, rfl, ?_⟩
    intro res hres
    cases hres
    simp [Result.code, Result.credentials, Forbidden, NewResponse]
  · rw [h]
    refine ⟨rfl, rfl, ?_⟩
    intro res hres
    cases hres
    simp [Result.code, Result.credentials]
  · rw [h]
    refine ⟨rfl, rfl, ?_⟩
    intro res hres
    cases hres
    by_cases hf : IsForbidden err = true <;>
      simp [hf, Result.code, Result.credentials, Forbidden, InternalServerError, NewResponse]
  · rw [h]
    refine ⟨rfl, rfl, ?_⟩
    intro res hres
    cases hres

/-- Case analysis on a run of `Bind`: a property holds of the outcome as soon as
it holds of the outcome of each of the twelve ways through the function. -/
theorem Bind_elim (imp : Imports) (w : World) (instanceID bindingID : String)
    (breq : BindRequest) (P : Outcome → Prop)
    (invalid : (imp.ValidateBindRequest breq).length > 0 →
      P ⟨.response (BadRequest (.aggregate (imp.ValidateBindRequest breq))), w.cluster, []⟩)
    (count : ¬ (imp.ValidateBindRequest breq).length > 0 → breq.parameters.length ≠ 1 →
      P ⟨.response (BadRequest (.new "parameters not supported on bind")), w.cluster, []⟩)
    (unknown : ∀ err, ¬ (imp.ValidateBindRequest breq).length > 0 →
      breq.parameters.length = 1 →
      w.getBrokerTemplateInstance instanceID = .error err → IsNotFound err = true →
      P ⟨.response (BadRequest err), w.cluster, [.getBrokerTemplateInstance instanceID]⟩)
    (fetchFailed : ∀ err, ¬ (imp.ValidateBindRequest breq).length > 0 →
      breq.parameters.length = 1 →
      w.getBrokerTemplateInstance instanceID = .error err → IsNotFound err = false →
      P ⟨.response (InternalServerError err), w.cluster,
        [.getBrokerTemplateInstance instanceID]⟩)
    (denied : ∀ bti err, ¬ (imp.ValidateBindRequest breq).length > 0 →
      breq.parameters.length = 1 →
      w.getBrokerTemplateInstance instanceID = .ok bti →
      w.authorize ⟨breq.parameters.index imp.RequesterUsernameParameterKey⟩
        (templateInstancesGetAttributes imp bti.templateInstanceNamespace) = some err →
      P ⟨.response (Forbidden err), w.cluster,
        [.getBrokerTemplateInstance instanceID] ++
        [.authorize ⟨breq.parameters.index imp.RequesterUsernameParameterKey⟩
          (templateInstancesGetAttributes imp bti.templateInstanceNamespace)]⟩)
    (resolved : ∀ bti, ¬ (imp.ValidateBindRequest breq).length > 0 →
      breq.parameters.length = 1 →
      w.getBrokerTemplateInstance instanceID = .ok bti →
      w.authorize ⟨breq.parameters.index imp.RequesterUsernameParameterKey⟩
        (templateInstancesGetAttributes imp bti.templateInstanceNamespace) = none →
      ∀ t3, t3 = [Call.getBrokerTemplateInstance instanceID] ++
        [.authorize ⟨breq.parameters.index imp.RequesterUsernameParameterKey⟩
          (templateInstancesGetAttributes imp bti.templateInstanceNamespace)] ++
        [.getTemplateInstance bti.templateInstanceNamespace bti.templateInstanceName] →
      (∀ err, w.getTemplateInstance bti.templateInstanceNamespace bti.templateInstanceName
          = .error err →
        P ⟨.response (InternalServerError err), w.cluster, t3⟩) ∧
      (∀ ti, w.getTemplateInstance bti.templateInstanceNamespace bti.templateInstanceName
          = .ok ti →
        (breq.serviceID ≠ ti.templateUID →
          P ⟨.response (BadRequest (.new "service_id does not match provisioned service")),
            w.cluster, t3⟩) ∧
        (breq.serviceID = ti.templateUID →
          (∀ res c4,
            getServices imp w ⟨breq.parameters.index imp.RequesterUsernameParameterKey⟩
              bti.templateInstanceNamespace instanceID = (.error res, c4) →
            P ⟨res, w.cluster, t3 ++ c4⟩) ∧
          (∀ services c4,
            getServices imp w ⟨breq.parameters.index imp.RequesterUsernameParameterKey⟩
              bti.templateInstanceNamespace instanceID = (.ok services, c4) →
            (∀ res c5,
              getSecrets imp w ⟨breq.parameters.index imp.RequesterUsernameParameterKey⟩
                bti.templateInstanceNamespace instanceID = (.error res, c5) →
              P ⟨res, w.cluster, t3 ++ c4 ++ c5⟩) ∧
            (∀ secrets c5,
              getSecrets imp w ⟨breq.parameters.index imp.RequesterUsernameParameterKey⟩
                bti.templateInstanceNamespace instanceID = (.ok secrets, c5) →
              (bindingID ∈ bti.bindingIDs →
                P ⟨.response (NewResponse .OK (some ⟨⟨services, secrets⟩⟩) none), w.cluster,
                  t3 ++ c4 ++ c5⟩) ∧
              (bindingID ∉ bti.bindingIDs →
                ∀ obj, obj = { bti with bindingIDs := bti.bindingIDs ++ [bindingID] } →
                (∀ err, w.updateBrokerTemplateInstance obj = .error err →
                  P ⟨.response (InternalServerError err), w.cluster,
                    t3 ++ c4 ++ c5 ++ [.updateBrokerTemplateInstance obj]⟩) ∧
                (∀ stored cluster, w.updateBrokerTemplateInstance obj = .ok (stored, cluster) →
                  P ⟨.response (NewResponse .Created (some ⟨⟨services, secrets⟩⟩) none),
                    cluster, t3 ++ c4 ++ c5 ++ [.updateBrokerTemplateInstance obj]⟩))))))) :
    P (Bind imp w instanceID bindingID breq) := by
  by_cases hv : (imp.ValidateBindRequest breq).length > 0
  · have : Bind imp w instanceID bindingID breq
        = ⟨.response (BadRequest (.aggregate (imp.ValidateBindRequest breq))),
            w.cluster, []⟩ := by
      simp [Bind, hv]
    rw [this]
    exact invalid hv
  by_cases hp : breq.parameters.length = 1
  swap
  · have : Bind imp w instanceID bindingID breq
        = ⟨.response (BadRequest (.new "parameters not supported on bind")),
            w.cluster, []⟩ := by
      simp [Bind, hv, hp]
    rw [this]
    exact count hv hp
  cases hget : w.getBrokerTemplateInstance instanceID with
  | error err =>
    cases hnf : IsNotFound err with
    | true =>
      have : Bind imp w instanceID bindingID breq
          = ⟨.response (BadRequest err), w.cluster,
              [.getBrokerTemplateInstance instanceID]⟩ := by
        simp [Bind, hv, hp, hget, hnf]
      rw [this]
      exact unknown err hv hp hget hnf
    | false =>
      have : Bind imp w instanceID bindingID breq
          = ⟨.response (InternalServerError err), w.cluster,
              [.getBrokerTemplateInstance instanceID]⟩ := by
        simp [Bind, hv, hp, hget, hnf]
      rw [this]
      exact fetchFailed err hv hp hget hnf
  | ok bti =>
    cases hauth : w.authorize ⟨breq.parameters.index imp.RequesterUsernameParameterKey⟩
        (templateInstancesGetAttributes imp bti.templateInstanceNamespace) with
    | some err =>
      have : Bind imp w instanceID bindingID breq
          = ⟨.response (Forbidden err), w.cluster,
              [.getBrokerTemplateInstance instanceID] ++
              [.authorize ⟨breq.parameters.index imp.RequesterUsernameParameterKey⟩
                (templateInstancesGetAttributes imp bti.templateInstanceNamespace)]⟩ := by
        simp [Bind, hv, hp, hget, hauth]
      rw [this]
      exact denied bti err hv hp hget hauth
    | none =>
      obtain ⟨hfail, hfetched⟩ := resolved bti hv hp hget hauth _ rfl
      cases hti : w.getTemplateInstance bti.templateInstanceNamespace
          bti.templateInstanceName with
      | error err =>
        simpa [Bind, hv, hp, hget, hauth, hti] using hfail err hti
      | ok ti =>
        obtain ⟨hmismatch, hmatch⟩ := hfetched ti hti
        by_cases hid : breq.serviceID = ti.templateUID
        swap
        · simpa [Bind, hv, hp, hget, hauth, hti, hid] using hmismatch hid
        obtain ⟨hsvcFail, hsvcOk⟩ := hmatch hid
        rcases hsvc : getServices imp w
            ⟨breq.parameters.index imp.RequesterUsernameParameterKey⟩
            bti.templateInstanceNamespace instanceID with ⟨r4, c4⟩
        cases r4 with
        | error res =>
          simpa [Bind, hv, hp, hget, hauth, hti, hid, hsvc] using hsvcFail res c4 hsvc
        | ok services =>
          obtain ⟨hsecFail, hsecOk⟩ := hsvcOk services c4 hsvc
          rcases hsec : getSecrets imp w
              ⟨breq.parameters.index imp.RequesterUsernameParameterKey⟩
              bti.templateInstanceNamespace instanceID with ⟨r5, c5⟩
          cases r5 with
          | error res =>
            simpa [Bind, hv, hp, hget, hauth, hti, hid, hsvc, hsec] using hsecFail res c5 hsec
          | ok secrets =>
            obtain ⟨hold, hnew⟩ := hsecOk secrets c5 hsec
            by_cases hmem : bindingID ∈ bti.bindingIDs
            · simpa [Bind, hv, hp, hget, hauth, hti, hid, hsvc, hsec, bindingStatus_eq, hmem]
                using hold hmem
            · obtain ⟨hupdFail, hupdOk⟩ := hnew hmem _ rfl
              cases hupd : w.updateBrokerTemplateInstance
                  { bti with bindingIDs := bti.bindingIDs ++ [bindingID] } with
              | error err =>
                simpa [Bind, hv, hp, hget, hauth, hti, hid, hsvc, hsec, bindingStatus_eq,
                  hmem, hupd] using hupdFail err hupd
              | ok pair =>
                obtain ⟨stored, cluster⟩ := pair
                simpa [Bind, hv, hp, hget, hauth, hti, hid, hsvc, hsec, bindingStatus_eq,
                  hmem, hupd] using hupdOk stored cluster hupd

/-! ## The store operations -/

theorem getBrokerTemplateInstance_ok (w : World) (name : String)
    (bti : BrokerTemplateInstance) (h : w.getBrokerTemplateInstance name = .ok bti) :
    w.fault .getBrokerTemplateInstance = none ∧
    w.cluster.findBrokerTemplateInstance name = some bti ∧ bti.name = name := by
  unfold World.getBrokerTemplateInstance at h
  cases hf : w.fault .getBrokerTemplateInstance with
  | some err => simp [hf] at h
  | none =>
    cases hfind : w.cluster.findBrokerTemplateInstance name with
    | none => simp [hf, hfind] at h
    | some r =>
      simp only [hf, hfind, Except.ok.injEq] at h
      subst h
      refine ⟨rfl, rfl, ?_⟩
      have := List.find?_some hfind
      simpa using this

theorem find_replaceRecord_same (obj : BrokerTemplateInstance)
    (records : List BrokerTemplateInstance) (old : BrokerTemplateInstance)
    (h : records.find? (fun r => r.name == obj.name) = some old) :
    (replaceRecord obj records).find? (fun r => r.name == obj.name) = some obj := by
  induction records with
  | nil => simp at h
  | cons r rest ih =>
    by_cases hr : r.name = obj.name
    · simp [replaceRecord, hr]
    · have h' : rest.find? (fun r => r.name == obj.name) = some old := by
        simpa [List.find?_cons, hr] using h
      simp [replaceRecord, hr, List.find?_cons, ih h']

theorem find_replaceRecord_other (obj : BrokerTemplateInstance)
    (records : List BrokerTemplateInstance) (name : String) (h : name ≠ obj.name) :
    (replaceRecord obj records).find? (fun r => r.name == name)
      = records.find? (fun r => r.name == name) := by
  induction records with
  | nil => rfl
  | cons r rest ih =>
    by_cases hr : r.name = obj.name
    · have h₁ : ¬ r.name = name := fun e => h (e.symm.trans hr)
      have h₂ : ¬ obj.name = name := fun e => h e.symm
      simp [replaceRecord, hr, List.find?_cons, h₂]
    · by_cases hn : r.name = name
      · simp [replaceRecord, hr, List.find?_cons, hn, h]
      · simp [replaceRecord, hr, List.find?_cons, hn, ih]

theorem updateBrokerTemplateInstance_ok (w : World) (obj stored : BrokerTemplateInstance)
    (cluster : Cluster) (h : w.updateBrokerTemplateInstance obj = .ok (stored, cluster)) :
    stored = { obj with resourceVersion := obj.resourceVersion + 1 } ∧
    cluster = { w.cluster with
      brokerTemplateInstances := replaceRecord stored w.cluster.brokerTemplateInstances } ∧
    ∃ old, w.cluster.findBrokerTemplateInstance obj.name = some old := by
  unfold World.updateBrokerTemplateInstance at h
  cases hf : w.fault .updateBrokerTemplateInstance with
  | some err => simp [hf] at h
  | none =>
    cases hfind : w.cluster.findBrokerTemplateInstance obj.name with
    | none => simp [hf, hfind] at h
    | some old =>
      by_cases hver : old.resourceVersion = obj.resourceVersion
      · simp only [hf, hfind, hver, ne_eq, not_true_eq_false, ↓reduceIte, Except.ok.injEq,
          Prod.mk.injEq] at h
        obtain ⟨h₁, h₂⟩ := h
        subst h₁
        exact ⟨rfl, h₂.symm, old, rfl⟩
      · simp [hf, hfind, hver] at h

/-- After a successful update the record of the updated name is the stored
object, and every other record is as before. -/
theorem find_after_update (w : World) (obj stored : BrokerTemplateInstance)
    (cluster : Cluster) (h : w.updateBrokerTemplateInstance obj = .ok (stored, cluster))
    (name : String) :
    cluster.findBrokerTemplateInstance name
      = if name = obj.name then some stored else w.cluster.findBrokerTemplateInstance name := by
  obtain ⟨hs, hc, old, hold⟩ := updateBrokerTemplateInstance_ok w obj stored cluster h
  have hname : stored.name = obj.name := by rw [hs]
  by_cases hn : name = obj.name
  · subst hn
    rw [if_pos rfl, hc]
    unfold Cluster.findBrokerTemplateInstance at hold ⊢
    simp only
    rw [← hname] at hold ⊢
    exact find_replaceRecord_same stored _ old hold
  · rw [if_neg hn, hc]
    unfold Cluster.findBrokerTemplateInstance
    simp only
    exact find_replaceRecord_other stored _ name (by rw [hname]; exact hn)

theorem updateAttempts_pos_of_mem (obj : BrokerTemplateInstance) (trace : List Call)
    (h : Call.updateBrokerTemplateInstance obj ∈ trace) : 0 < updateAttempts trace := by
  unfold updateAttempts
  apply List.length_pos_of_mem (a := Call.updateBrokerTemplateInstance obj)
  simp [List.mem_filter, h]

theorem mem_update_of_no_other (obj obj' : BrokerTemplateInstance) (trace : List Call)
    (h₀ : updateAttempts trace = 0)
    (h : Call.updateBrokerTemplateInstance obj' ∈ trace ++ [.updateBrokerTemplateInstance obj]) :
    obj' = obj := by
  rcases List.mem_append.mp h with h | h
  · have := updateAttempts_pos_of_mem obj' trace h
    omega
  · simpa using h

/-! ## The binding ledger -/

/-- C7: when the binding IDs of a stored broker instance record are pairwise
distinct, they are pairwise distinct after any call of `Bind`, whatever its
arguments and its outcome; the list is either left as it is or, for the record
of the instance ID and a binding ID that was absent, extended by the binding ID
at its end. -/
theorem Bind_keeps_binding_ids_distinct (imp : Imports) (w : World)
    (instanceID bindingID : String) (breq : BindRequest)
    (name : String) (r : BrokerTemplateInstance)
    (hr : w.cluster.findBrokerTemplateInstance name = some r)
    (hnodup : r.bindingIDs.Nodup) :
    ∃ r', (Bind imp w instanceID bindingID breq).cluster.findBrokerTemplateInstance name
        = some r' ∧
      r'.bindingIDs.Nodup ∧
      (r'.bindingIDs = r.bindingIDs ∨
        (name = instanceID ∧ bindingID ∉ r.bindingIDs ∧
          r'.bindingIDs = r.bindingIDs ++ [bindingID])) := by
  have same : ∃ r', w.cluster.findBrokerTemplateInstance name = some r' ∧
      r'.bindingIDs.Nodup ∧
      (r'.bindingIDs = r.bindingIDs ∨
        (name = instanceID ∧ bindingID ∉ r.bindingIDs ∧
          r'.bindingIDs = r.bindingIDs ++ [bindingID])) :=
    ⟨r, hr, hnodup, Or.inl rfl⟩
  refine Bind_elim imp w instanceID bindingID breq
    (fun o => ∃ r', o.cluster.findBrokerTemplateInstance name = some r' ∧
      r'.bindingIDs.Nodup ∧
      (r'.bindingIDs = r.bindingIDs ∨
        (name = instanceID ∧ bindingID ∉ r.bindingIDs ∧
          r'.bindingIDs = r.bindingIDs ++ [bindingID])))
    (fun _ => same) (fun _ _ => same) (fun _ _ _ _ _ => same) (fun _ _ _ _ _ => same)
    (fun _ _ _ _ _ _ => same) ?_
  intro bti _ _ hget _ t3 _
  refine ⟨fun _ _ => same, fun ti _ => ⟨fun _ => same, fun _ => ⟨fun _ _ _ => same,
    fun services c4 _ => ⟨fun _ _ _ => same, fun secrets c5 _ => ⟨fun _ => same,
      fun hmem obj hobj => ⟨fun _ _ => same, fun stored cluster hupd => ?_⟩⟩⟩⟩⟩⟩
  obtain ⟨_, hfind, hname⟩ := getBrokerTemplateInstance_ok w instanceID bti hget
  obtain ⟨hstored, _, _⟩ := updateBrokerTemplateInstance_ok w obj stored cluster hupd
  have hobjname : obj.name = instanceID := by rw [hobj]; exact hname
  have hafter := find_after_update w obj stored cluster hupd name
  by_cases hn : name = instanceID
  · subst hn
    have hrb : r = bti := by
      rw [hr] at hfind
      exact Option.some.inj hfind
    subst hrb
    have hids : stored.bindingIDs = r.bindingIDs ++ [bindingID] := by
      rw [hstored, hobj]
    refine ⟨stored, ?_, ?_, Or.inr ⟨rfl, hmem, hids⟩⟩
    · simpa [hobjname] using hafter
    · rw [hids]
      apply List.nodup_append.mpr
      refine ⟨hnodup, List.nodup_singleton _, ?_⟩
      intro a ha hb
      have : a = bindingID := by simpa using hb
      exact hmem (this ▸ ha)
  · refine ⟨r, ?_, hnodup, Or.inl rfl⟩
    have hne : ¬ name = obj.name := by rw [hobjname]; exact hn
    simpa [hne, hr] using hafter

/-- Witness of C7: the record `abc` of `demoCluster`, which holds the binding
`b0`, after a bind for `b1`. -/
theorem Bind_keeps_binding_ids_distinct_witness :
    ∃ r', (Bind originImports demoWorld "abc" "b1" demoRequest).cluster.findBrokerTemplateInstance
        "abc" = some r' ∧
      r'.bindingIDs.Nodup ∧
      (r'.bindingIDs = ["b0"] ∨
        ("abc" = "abc" ∧ "b1" ∉ ["b0"] ∧ r'.bindingIDs = ["b0"] ++ ["b1"])) :=
  Bind_keeps_binding_ids_distinct originImports demoWorld "abc" "b1" demoRequest "abc"
    ⟨"abc", 7, "ns", "ti", ["b0"]⟩ (by decide) (by decide)

/-- C6 (as stated, refuted): in `conflictWorld` the update of the record meets a
version conflict and `Bind` answers InternalServerError, after a single fetch
and a single update attempt, not two. -/
theorem Bind_conflict_not_retried :
    (∃ err, conflictWorld.fault .updateBrokerTemplateInstance = some err ∧
      IsConflict err = true ∧
      (Bind originImports conflictWorld "abc" "b1" demoRequest).result
        = .response (InternalServerError err)) ∧
    updateAttempts (Bind originImports conflictWorld "abc" "b1" demoRequest).trace = 1 ∧
    fetchAttempts (Bind originImports conflictWorld "abc" "b1" demoRequest).trace = 1 ∧
    ¬ 2 ≤ updateAttempts (Bind originImports conflictWorld "abc" "b1" demoRequest).trace :=
  ⟨⟨.status .Conflict "the object has been modified", by decide, by decide, by decide⟩,
    by decide, by decide, by decide⟩

/-- C6 (amended): every run of `Bind` fetches the broker instance record at most
once and attempts the update at most once, so the number of attempts is bounded
and there is no retry; when the update attempt fails, with a version conflict
or with any other error, `Bind` answers InternalServerError with that error
after exactly one fetch and one update attempt, and the store is left as it
was. -/
theorem Bind_single_update_attempt (imp : Imports) (w : World)
    (instanceID bindingID : String) (breq : BindRequest) :
    updateAttempts (Bind imp w instanceID bindingID breq).trace ≤ 1 ∧
    fetchAttempts (Bind imp w instanceID bindingID breq).trace ≤ 1 ∧
    (∀ obj err,
      Call.updateBrokerTemplateInstance obj ∈ (Bind imp w instanceID bindingID breq).trace →
      w.updateBrokerTemplateInstance obj = .error err →
      (Bind imp w instanceID bindingID breq).result = .response (InternalServerError err) ∧
      updateAttempts (Bind imp w instanceID bindingID breq).trace = 1 ∧
      fetchAttempts (Bind imp w instanceID bindingID breq).trace = 1 ∧
      (Bind imp w instanceID bindingID breq).cluster = w.cluster) := by
  have quiet : ∀ (o : Outcome), updateAttempts o.trace = 0 → fetchAttempts o.trace ≤ 1 →
      updateAttempts o.trace ≤ 1 ∧ fetchAttempts o.trace ≤ 1 ∧
      (∀ obj err, Call.updateBrokerTemplateInstance obj ∈ o.trace →
        w.updateBrokerTemplateInstance obj = .error err →
        o.result = .response (InternalServerError err) ∧
        updateAttempts o.trace = 1 ∧ fetchAttempts o.trace = 1 ∧ o.cluster = w.cluster) := by
    intro o h₀ h₁
    refine ⟨by omega, h₁, ?_⟩
    intro obj err hmem _
    have := updateAttempts_pos_of_mem obj o.trace hmem
    omega
  refine Bind_elim imp w instanceID bindingID breq
    (fun o => updateAttempts o.trace ≤ 1 ∧ fetchAttempts o.trace ≤ 1 ∧
      (∀ obj err, Call.updateBrokerTemplateInstance obj ∈ o.trace →
        w.updateBrokerTemplateInstance obj = .error err →
        o.result = .response (InternalServerError err) ∧
        updateAttempts o.trace = 1 ∧ fetchAttempts o.trace = 1 ∧ o.cluster = w.cluster))
    (fun _ => quiet _ rfl (by simp [fetchAttempts])) (fun _ _ => quiet _ rfl (by simp [fetchAttempts]))
    (fun _ _ _ _ _ => quiet _ rfl (by simp [fetchAttempts]))
    (fun _ _ _ _ _ => quiet _ rfl (by simp [fetchAttempts]))
    (fun _ _ _ _ _ _ => quiet _ (by simp [updateAttempts]) (by simp [fetchAttempts])) ?_
  intro bti _ _ hget _ t3 ht3
  have hu3 : updateAttempts t3 = 0 := by rw [ht3]; simp [updateAttempts]
  have hf3 : fetchAttempts t3 = 1 := by rw [ht3]; simp [fetchAttempts]
  refine ⟨fun _ _ => quiet _ hu3 (le_of_eq hf3),
    fun ti _ => ⟨fun _ => quiet _ hu3 (le_of_eq hf3), fun _ => ⟨?_, ?_⟩⟩⟩
  · intro res c4 hsvc
    have h := getServices_facts imp w
      ⟨breq.parameters.index imp.RequesterUsernameParameterKey⟩
      bti.templateInstanceNamespace instanceID
    rw [hsvc] at h
    exact quiet _ (by simp [updateAttempts_append, hu3, h.1])
      (by simp [fetchAttempts_append, hf3, h.2.1])
  · intro services c4 hsvc
    have h4 := getServices_facts imp w
      ⟨breq.parameters.index imp.RequesterUsernameParameterKey⟩
      bti.templateInstanceNamespace instanceID
    rw [hsvc] at h4
    refine ⟨?_, ?_⟩
    · intro res c5 hsec
      have h5 := getSecrets_facts imp w
        ⟨breq.parameters.index imp.RequesterUsernameParameterKey⟩
        bti.templateInstanceNamespace instanceID
      rw [hsec] at h5
      exact quiet _ (by simp [updateAttempts_append, hu3, h4.1, h5.1])
        (by simp [fetchAttempts_append, hf3, h4.2.1, h5.2.1])
    · intro secrets c5 hsec
      have h5 := getSecrets_facts imp w
        ⟨breq.parameters.index imp.RequesterUsernameParameterKey⟩
        bti.templateInstanceNamespace instanceID
      rw [hsec] at h5
      have hu5 : updateAttempts (t3 ++ c4 ++ c5) = 0 := by
        simp [updateAttempts_append, hu3, h4.1, h5.1]
      have hf5 : fetchAttempts (t3 ++ c4 ++ c5) = 1 := by
        simp [fetchAttempts_append, hf3, h4.2.1, h5.2.1]
      refine ⟨fun _ => quiet _ hu5 (le_of_eq hf5), fun _ obj _ => ⟨?_, ?_⟩⟩
      · intro err hupd
        have hu6 : updateAttempts (t3 ++ c4 ++ c5 ++ [.updateBrokerTemplateInstance obj]) = 1 := by
          rw [updateAttempts_append, hu5]
          rfl
        have hf6 : fetchAttempts (t3 ++ c4 ++ c5 ++ [.updateBrokerTemplateInstance obj]) = 1 := by
          rw [fetchAttempts_append, hf5]
          rfl
        refine ⟨le_of_eq hu6, le_of_eq hf6, ?_⟩
        intro obj' err' hmem hupd'
        have hobj := mem_update_of_no_other obj obj' _ hu5 hmem
        subst hobj
        rw [hupd] at hupd'
        cases hupd'
        exact ⟨rfl, hu6, hf6, rfl⟩
      · intro stored cluster hupd
        have hu6 : updateAttempts (t3 ++ c4 ++ c5 ++ [.updateBrokerTemplateInstance obj]) = 1 := by
          rw [updateAttempts_append, hu5]
          rfl
        have hf6 : fetchAttempts (t3 ++ c4 ++ c5 ++ [.updateBrokerTemplateInstance obj]) = 1 := by
          rw [fetchAttempts_append, hf5]
          rfl
        refine ⟨le_of_eq hu6, le_of_eq hf6, ?_⟩
        intro obj' err' hmem hupd'
        have hobj := mem_update_of_no_other obj obj' _ hu5 hmem
        subst hobj
        rw [hupd] at hupd'
        cases hupd'

/-! ## Authorization before disclosure -/

theorem getServices_ok_inv (imp : Imports) (w : World) (u : User) (ns instanceID : String)
    (m : StringMap) (c : List Call)
    (h : getServices imp w u ns instanceID = (.ok m, c)) :
    w.authorize u (servicesListAttributes ns) = none ∧
    imp.NewRequirementOK instanceID = true := by
  rcases getServices_cases imp w u ns instanceID with
    ⟨err, _, h'⟩ | ⟨_, _, h'⟩ | ⟨err, _, _, _, h'⟩ | ⟨items, m', ha, hr, _, _, _⟩
  · rw [h'] at h
    cases h
  · rw [h'] at h
    cases h
  · rw [h'] at h
    cases h
  · exact ⟨ha, hr⟩

theorem getSecrets_ok_inv (imp : Imports) (w : World) (u : User) (ns instanceID : String)
    (m : StringMap) (c : List Call)
    (h : getSecrets imp w u ns instanceID = (.ok m, c)) :
    w.authorize u (secretsListAttributes ns) = none := by
  rcases getSecrets_cases imp w u ns instanceID with
    ⟨err, _, h'⟩ | ⟨_, _, h'⟩ | ⟨err, _, _, _, h'⟩ | ⟨items, ha, _, _, _⟩
  · rw [h'] at h
    cases h
  · rw [h'] at h
    cases h
  · rw [h'] at h
    cases h
  · exact ha

theorem getServices_error_forbidden (imp : Imports) (w : World) (u : User)
    (ns instanceID : String) (res : Result) (c : List Call)
    (h : getServices imp w u ns instanceID = (.error res, c))
    (hreq : imp.NewRequirementOK instanceID = true)
    (hlist : ∀ err, w.listServices imp ns instanceID = .error err → IsForbidden err = true) :
    res.code = some .Forbidden := by
  rcases getServices_cases imp w u ns instanceID with
    ⟨err, _, h'⟩ | ⟨_, hr, _⟩ | ⟨err, _, _, hl, h'⟩ | ⟨items, m', _, _, _, _, h'⟩
  · rw [h'] at h
    cases h
    rfl
  · rw [hr] at hreq
    cases hreq
  · rw [h'] at h
    cases h
    simp [hlist err hl, Result.code, Forbidden, NewResponse]
  · rw [h'] at h
    cases h

theorem getSecrets_error_denied (imp : Imports) (w : World) (u : User)
    (ns instanceID : String) (res : Result) (c : List Call)
    (h : getSecrets imp w u ns instanceID = (.error res, c))
    (hdeny : w.authorize u (secretsListAttributes ns) ≠ none) :
    res.code = some .Forbidden := by
  rcases getSecrets_cases imp w u ns instanceID with
    ⟨err, _, h'⟩ | ⟨ha, _, _⟩ | ⟨err, ha, _, _, _⟩ | ⟨items, ha, _, _, _⟩
  · rw [h'] at h
    cases h
    rfl
  · exact absurd ha hdeny
  · exact absurd ha hdeny
  · exact absurd ha hdeny

theorem getServices_denied_call (imp : Imports) (w : World) (u : User)
    (ns instanceID : String) (u' : User) (a : ResourceAttributes)
    (hmem : Call.authorize u' a ∈ (getServices imp w u ns instanceID).2)
    (hd : w.authorize u' a ≠ none) :
    ∃ res, (getServices imp w u ns instanceID).1 = .error res ∧
      res.code = some .Forbidden := by
  rcases getServices_cases imp w u ns instanceID with
    ⟨err, _, h⟩ | ⟨ha, _, h⟩ | ⟨err, ha, _, _, h⟩ | ⟨items, m, ha, _, _, _, h⟩
  · rw [h]
    exact ⟨_, rfl, rfl⟩
  all_goals
    rw [h] at hmem
    simp only [List.mem_cons, Call.authorize.injEq, List.mem_singleton, List.not_mem_nil,
      or_false, reduceCtorEq] at hmem
    obtain ⟨hu, hattrs⟩ := hmem
    subst hu hattrs
    exact absurd ha hd

theorem getSecrets_denied_call (imp : Imports) (w : World) (u : User)
    (ns instanceID : String) (u' : User) (a : ResourceAttributes)
    (hmem : Call.authorize u' a ∈ (getSecrets imp w u ns instanceID).2)
    (hd : w.authorize u' a ≠ none) :
    ∃ res, (getSecrets imp w u ns instanceID).1 = .error res ∧
      res.code = some .Forbidden := by
  rcases getSecrets_cases imp w u ns instanceID with
    ⟨err, _, h⟩ | ⟨ha, _, h⟩ | ⟨err, ha, _, _, h⟩ | ⟨items, ha, _, _, h⟩
  · rw [h]
    exact ⟨_, rfl, rfl⟩
  all_goals
    rw [h] at hmem
    simp only [List.mem_cons, Call.authorize.injEq, List.mem_singleton, List.not_mem_nil,
      or_false, reduceCtorEq] at hmem
    obtain ⟨hu, hattrs⟩ := hmem
    subst hu hattrs
    exact absurd ha hd

/-- A run of `Bind` in which an access review is made and denied ends with
Forbidden. -/
theorem Bind_denied_call_forbidden (imp : Imports) (w : World)
    (instanceID bindingID : String) (breq : BindRequest) (u' : User)
    (a : ResourceAttributes)
    (hmem : Call.authorize u' a ∈ (Bind imp w instanceID bindingID breq).trace)
    (hd : w.authorize u' a ≠ none) :
    (Bind imp w instanceID bindingID breq).result.code = some .Forbidden := by
  revert hmem
  refine Bind_elim imp w instanceID bindingID breq
    (fun o => Call.authorize u' a ∈ o.trace → o.result.code = some .Forbidden)
    (fun _ h => by simp at h) (fun _ _ h => by simp at h)
    (fun _ _ _ _ _ h => by simp at h) (fun _ _ _ _ _ h => by simp at h)
    (fun _ _ _ _ _ _ _ => rfl) ?_
  intro bti _ _ _ hauth t3 ht3
  have h3 : Call.authorize u' a ∉ t3 := by
    intro hmem
    rw [ht3] at hmem
    simp only [List.cons_append, List.nil_append, List.mem_cons, Call.authorize.injEq,
      List.mem_singleton, List.not_mem_nil, or_false, reduceCtorEq, false_or] at hmem
    obtain ⟨hu, hattrs⟩ := hmem
    subst hu hattrs
    exact hd hauth
  refine ⟨fun _ _ h => absurd h h3, fun ti _ => ⟨fun _ h => absurd h h3, fun _ =>
    ⟨fun res c4 hsvc h => ?_, fun services c4 hsvc =>
      ⟨fun res c5 hsec h => ?_, fun secrets c5 hsec => ?_⟩⟩⟩⟩
  · rcases List.mem_append.mp h with h | h
    · exact absurd h h3
    · have hc : c4 = (getServices imp w
          ⟨breq.parameters.index imp.RequesterUsernameParameterKey⟩
          bti.templateInstanceNamespace instanceID).2 := by rw [hsvc]
      rw [hc] at h
      obtain ⟨res', hres, hcode⟩ := getServices_denied_call imp w _ _ _ u' a h hd
      rw [hsvc] at hres
      cases hres
      exact hcode
  · have h4 : Call.authorize u' a ∉ c4 := by
      intro h
      have hc : c4 = (getServices imp w
          ⟨breq.parameters.index imp.RequesterUsernameParameterKey⟩
          bti.templateInstanceNamespace instanceID).2 := by rw [hsvc]
      rw [hc] at h
      obtain ⟨res', hres, _⟩ := getServices_denied_call imp w _ _ _ u' a h hd
      rw [hsvc] at hres
      cases hres
    rcases List.mem_append.mp h with h | h
    · rcases List.mem_append.mp h with h | h
      · exact absurd h h3
      · exact absurd h h4
    · have hc : c5 = (getSecrets imp w
          ⟨breq.parameters.index imp.RequesterUsernameParameterKey⟩
          bti.templateInstanceNamespace instanceID).2 := by rw [hsec]
      rw [hc] at h
      obtain ⟨res', hres, hcode⟩ := getSecrets_denied_call imp w _ _ _ u' a h hd
      rw [hsec] at hres
      cases hres
      exact hcode
  · have h4 : Call.authorize u' a ∉ c4 := by
      intro h
      have hc : c4 = (getServices imp w
          ⟨breq.parameters.index imp.RequesterUsernameParameterKey⟩
          bti.templateInstanceNamespace instanceID).2 := by rw [hsvc]
      rw [hc] at h
      obtain ⟨res', hres, _⟩ := getServices_denied_call imp w _ _ _ u' a h hd
      rw [hsvc] at hres
      cases hres
    have h5 : Call.authorize u' a ∉ c5 := by
      intro h
      have hc : c5 = (getSecrets imp w
          ⟨breq.parameters.index imp.RequesterUsernameParameterKey⟩
          bti.templateInstanceNamespace instanceID).2 := by rw [hsec]
      rw [hc] at h
      obtain ⟨res', hres, _⟩ := getSecrets_denied_call imp w _ _ _ u' a h hd
      rw [hsec] at hres
      cases hres
    have h345 : Call.authorize u' a ∉ t3 ++ c4 ++ c5 := by
      simp only [List.mem_append, not_or]
      exact ⟨⟨h3, h4⟩, h5⟩
    refine ⟨fun _ h => absurd h h345, fun _ obj _ => ⟨fun err _ h => ?_,
      fun stored cluster _ h => ?_⟩⟩
    · rcases List.mem_append.mp h with h | h
      · exact absurd h h345
      · simp at h
    · rcases List.mem_append.mp h with h | h
      · exact absurd h h345
      · simp at h

/-- C5 (as stated, refuted): in `secretsDeniedWorld` the request of `alice` is
shape-valid, the instance record exists and the oracle denies listing secrets,
but the service ID does not match, and `Bind` answers BadRequest, not
Forbidden. -/
theorem Bind_denied_not_always_forbidden :
    originImports.ValidateBindRequest mismatchedRequest = [] ∧
    mismatchedRequest.parameters.length = 1 ∧
    secretsDeniedWorld.getBrokerTemplateInstance "abc"
      = .ok ⟨"abc", 7, "ns", "ti", ["b0"]⟩ ∧
    secretsDeniedWorld.authorize
      ⟨mismatchedRequest.parameters.index originImports.RequesterUsernameParameterKey⟩
      (secretsListAttributes "ns") ≠ none ∧
    (Bind originImports secretsDeniedWorld "abc" "b1" mismatchedRequest).result
      = .response (BadRequest (.new "service_id does not match provisioned service")) ∧
    (Bind originImports secretsDeniedWorld "abc" "b1" mismatchedRequest).result.code
      ≠ some .Forbidden :=
  ⟨rfl, by decide, rfl, by decide, by decide, by decide⟩

/-- C5 (amended): for a shape-valid bind request whose instance record exists,
if the authorization oracle denies one of the three checks made for the
impersonated principal in the namespace of the record, `Bind` returns no
success response (neither Created nor OK), the outcome carries no credential
payload, and the store is not updated.  The response is Forbidden whenever the
denied check is one that the run makes: so when the check that is denied is the
one for getting the provisioning record, and also when the provisioning record
is fetched, the service ID matches, the label requirement is well formed and
listing the services does not fail with an error other than a forbidden one. -/
theorem Bind_denied_discloses_nothing (imp : Imports) (w : World)
    (instanceID bindingID : String) (breq : BindRequest) (bti : BrokerTemplateInstance)
    (hv : imp.ValidateBindRequest breq = [])
    (hp : breq.parameters.length = 1)
    (hget : w.getBrokerTemplateInstance instanceID = .ok bti)
    (hdeny :
      w.authorize ⟨breq.parameters.index imp.RequesterUsernameParameterKey⟩
        (templateInstancesGetAttributes imp bti.templateInstanceNamespace) ≠ none ∨
      w.authorize ⟨breq.parameters.index imp.RequesterUsernameParameterKey⟩
        (servicesListAttributes bti.templateInstanceNamespace) ≠ none ∨
      w.authorize ⟨breq.parameters.index imp.RequesterUsernameParameterKey⟩
        (secretsListAttributes bti.templateInstanceNamespace) ≠ none) :
    (Bind imp w instanceID bindingID breq).result.code ≠ some .Created ∧
    (Bind imp w instanceID bindingID breq).result.code ≠ some .OK ∧
    (Bind imp w instanceID bindingID breq).result.credentials = none ∧
    (Bind imp w instanceID bindingID breq).cluster = w.cluster ∧
    updateAttempts (Bind imp w instanceID bindingID breq).trace = 0 ∧
    (∀ u a, Call.authorize u a ∈ (Bind imp w instanceID bindingID breq).trace →
      w.authorize u a ≠ none →
      (Bind imp w instanceID bindingID breq).result.code = some .Forbidden) ∧
    (w.authorize ⟨breq.parameters.index imp.RequesterUsernameParameterKey⟩
        (templateInstancesGetAttributes imp bti.templateInstanceNamespace) ≠ none →
      (Bind imp w instanceID bindingID breq).result.code = some .Forbidden) ∧
    (∀ ti,
      w.getTemplateInstance bti.templateInstanceNamespace bti.templateInstanceName = .ok ti →
      breq.serviceID = ti.templateUID →
      imp.NewRequirementOK instanceID = true →
      (∀ err, w.listServices imp bti.templateInstanceNamespace instanceID = .error err →
        IsForbidden err = true) →
      (Bind imp w instanceID bindingID breq).result.code = some .Forbidden) := by
  have hv' : ¬ (imp.ValidateBindRequest breq).length > 0 := by simp [hv]
  have hcalls := Bind_denied_call_forbidden imp w instanceID bindingID breq
  suffices hrest :
      (Bind imp w instanceID bindingID breq).result.code ≠ some .Created ∧
      (Bind imp w instanceID bindingID breq).result.code ≠ some .OK ∧
      (Bind imp w instanceID bindingID breq).result.credentials = none ∧
      (Bind imp w instanceID bindingID breq).cluster = w.cluster ∧
      updateAttempts (Bind imp w instanceID bindingID breq).trace = 0 ∧
      (w.authorize ⟨breq.parameters.index imp.RequesterUsernameParameterKey⟩
          (templateInstancesGetAttributes imp bti.templateInstanceNamespace) ≠ none →
        (Bind imp w instanceID bindingID breq).result.code = some .Forbidden) ∧
      (∀ ti,
        w.getTemplateInstance bti.templateInstanceNamespace bti.templateInstanceName
          = .ok ti →
        breq.serviceID = ti.templateUID →
        imp.NewRequirementOK instanceID = true →
        (∀ err, w.listServices imp bti.templateInstanceNamespace instanceID = .error err →
          IsForbidden err = true) →
        (Bind imp w instanceID bindingID breq).result.code = some .Forbidden) by
    obtain ⟨h₁, h₂, h₃, h₄, h₅, h₆, h₇⟩ := hrest
    exact ⟨h₁, h₂, h₃, h₄, h₅, fun u a hmem hd => hcalls u a hmem hd, h₆, h₇⟩
  refine Bind_elim imp w instanceID bindingID breq
    (fun o => o.result.code ≠ some .Created ∧ o.result.code ≠ some .OK ∧
      o.result.credentials = none ∧ o.cluster = w.cluster ∧ updateAttempts o.trace = 0 ∧
      (w.authorize ⟨breq.parameters.index imp.RequesterUsernameParameterKey⟩
          (templateInstancesGetAttributes imp bti.templateInstanceNamespace) ≠ none →
        o.result.code = some .Forbidden) ∧
      (∀ ti,
        w.getTemplateInstance bti.templateInstanceNamespace bti.templateInstanceName
          = .ok ti →
        breq.serviceID = ti.templateUID →
        imp.NewRequirementOK instanceID = true →
        (∀ err, w.listServices imp bti.templateInstanceNamespace instanceID = .error err →
          IsForbidden err = true) →
        o.result.code = some .Forbidden))
    (fun h => absurd h hv') (fun _ h => absurd hp h) ?_ ?_ ?_ ?_
  · intro err _ _ h _
    rw [hget] at h
    cases h
  · intro err _ _ h _
    rw [hget] at h
    cases h
  · intro bti' err _ _ hget' hauth
    rw [hget] at hget'
    cases hget'
    refine ⟨by simp [Result.code, Forbidden, NewResponse],
      by simp [Result.code, Forbidden, NewResponse], rfl, rfl, rfl, fun _ => rfl,
      fun _ _ _ _ _ => rfl⟩
  · intro bti' _ _ hget' hauth t3 ht3
    rw [hget] at hget'
    cases hget'
    have hu3 : updateAttempts t3 = 0 := by rw [ht3]; rfl
    refine ⟨fun err hti => ?_, fun ti hti => ⟨fun hne => ?_, fun hid =>
      ⟨fun res c4 hsvc => ?_, fun services c4 hsvc =>
        ⟨fun res c5 hsec => ?_, fun secrets c5 hsec => ?_⟩⟩⟩⟩
    · refine ⟨by simp [Result.code, InternalServerError, NewResponse],
        by simp [Result.code, InternalServerError, NewResponse], rfl, rfl, hu3,
        fun h => absurd hauth h, ?_⟩
      intro ti' hti'
      rw [hti] at hti'
      cases hti'
    · refine ⟨by simp [Result.code, BadRequest, NewResponse],
        by simp [Result.code, BadRequest, NewResponse], rfl, rfl, hu3,
        fun h => absurd hauth h, ?_⟩
      intro ti' hti' hid'
      rw [hti] at hti'
      cases hti'
      exact absurd hid' hne
    · have h4 := getServices_facts imp w
        ⟨breq.parameters.index imp.RequesterUsernameParameterKey⟩
        bti.templateInstanceNamespace instanceID
      rw [hsvc] at h4
      obtain ⟨h41, _, h43⟩ := h4
      obtain ⟨hc1, hc2, hc3⟩ := h43 res rfl
      refine ⟨hc1, hc2, hc3, rfl, by rw [updateAttempts_append, hu3, h41],
        fun h => absurd hauth h, ?_⟩
      intro ti' _ _ hreq hlist
      exact getServices_error_forbidden imp w _ _ _ res c4 hsvc hreq hlist
    · have h4 := getServices_facts imp w
        ⟨breq.parameters.index imp.RequesterUsernameParameterKey⟩
        bti.templateInstanceNamespace instanceID
      rw [hsvc] at h4
      have h5 := getSecrets_facts imp w
        ⟨breq.parameters.index imp.RequesterUsernameParameterKey⟩
        bti.templateInstanceNamespace instanceID
      rw [hsec] at h5
      obtain ⟨h51, _, h53⟩ := h5
      obtain ⟨hc1, hc2, hc3⟩ := h53 res rfl
      refine ⟨hc1, hc2, hc3, rfl,
        by rw [updateAttempts_append, updateAttempts_append, hu3, h4.1, h51],
        fun h => absurd hauth h, ?_⟩
      intro ti' _ _ _ _
      have hsvcAllowed := (getServices_ok_inv imp w _ _ _ services c4 hsvc).1
      have hsecDenied : w.authorize ⟨breq.parameters.index imp.RequesterUsernameParameterKey⟩
          (secretsListAttributes bti.templateInstanceNamespace) ≠ none := by
        rcases hdeny with h | h | h
        · exact absurd hauth h
        · exact absurd hsvcAllowed h
        · exact h
      exact getSecrets_error_denied imp w _ _ _ res c5 hsec hsecDenied
    · exfalso
      have hsvcAllowed := (getServices_ok_inv imp w _ _ _ services c4 hsvc).1
      have hsecAllowed := getSecrets_ok_inv imp w _ _ _ secrets c5 hsec
      rcases hdeny with h | h | h
      · exact h hauth
      · exact h hsvcAllowed
      · exact h hsecAllowed

/-- Witness of C5 (amended): in `secretsDeniedWorld` the matching request of
`alice` is answered with Forbidden. -/
theorem Bind_denied_discloses_nothing_witness :
    (Bind originImports secretsDeniedWorld "abc" "b1" demoRequest).result.code
      = some .Forbidden ∧
    (Bind originImports secretsDeniedWorld "abc" "b1" demoRequest).result.credentials = none ∧
    (Bind originImports secretsDeniedWorld "abc" "b1" demoRequest).cluster
      = secretsDeniedWorld.cluster :=
  have h := Bind_denied_discloses_nothing originImports secretsDeniedWorld "abc" "b1"
    demoRequest ⟨"abc", 7, "ns", "ti", ["b0"]⟩ rfl (by decide) rfl
    (Or.inr (Or.inr (by decide)))
  ⟨h.2.2.2.2.2.2.2 ⟨"ti", "ns", "uid-1"⟩ rfl (by decide) rfl
      (fun err herr => by cases herr),
    h.2.2.1, h.2.2.2.1⟩

/-! ## Idempotency -/

theorem getTemplateInstance_congr (w w' : World) (ns name : String)
    (hf : w'.fault = w.fault)
    (ht : w'.cluster.templateInstances = w.cluster.templateInstances) :
    w'.getTemplateInstance ns name = w.getTemplateInstance ns name := by
  simp [World.getTemplateInstance, Cluster.findTemplateInstance, hf, ht]

theorem getServices_congr (imp : Imports) (w w' : World) (u : User) (ns instanceID : String)
    (ha : w'.authorize = w.authorize) (hf : w'.fault = w.fault)
    (hs : w'.cluster.services = w.cluster.services) :
    getServices imp w' u ns instanceID = getServices imp w u ns instanceID := by
  simp [getServices, World.listServices, ha, hf, hs]

theorem getSecrets_congr (imp : Imports) (w w' : World) (u : User) (ns instanceID : String)
    (ha : w'.authorize = w.authorize) (hf : w'.fault = w.fault)
    (hs : w'.cluster.secrets = w.cluster.secrets) :
    getSecrets imp w' u ns instanceID = getSecrets imp w u ns instanceID := by
  simp [getSecrets, World.listSecrets, ha, hf, hs]

/-- The run of `Bind` for a binding ID that is already recorded, when every
step before the ledger succeeds. -/
theorem Bind_already_bound (imp : Imports) (w : World) (instanceID bindingID : String)
    (breq : BindRequest) (bti : BrokerTemplateInstance) (ti : TemplateInstance)
    (services secrets : StringMap) (c4 c5 : List Call)
    (hv : ¬ (imp.ValidateBindRequest breq).length > 0)
    (hp : breq.parameters.length = 1)
    (hget : w.getBrokerTemplateInstance instanceID = .ok bti)
    (hauth : w.authorize ⟨breq.parameters.index imp.RequesterUsernameParameterKey⟩
      (templateInstancesGetAttributes imp bti.templateInstanceNamespace) = none)
    (hti : w.getTemplateInstance bti.templateInstanceNamespace bti.templateInstanceName
      = .ok ti)
    (hid : breq.serviceID = ti.templateUID)
    (hsvc : getServices imp w ⟨breq.parameters.index imp.RequesterUsernameParameterKey⟩
      bti.templateInstanceNamespace instanceID = (.ok services, c4))
    (hsec : getSecrets imp w ⟨breq.parameters.index imp.RequesterUsernameParameterKey⟩
      bti.templateInstanceNamespace instanceID = (.ok secrets, c5))
    (hmem : bindingID ∈ bti.bindingIDs) :
    (Bind imp w instanceID bindingID breq).result
      = .response (NewResponse .OK (some ⟨⟨services, secrets⟩⟩) none) ∧
    (Bind imp w instanceID bindingID breq).cluster = w.cluster ∧
    updateAttempts (Bind imp w instanceID bindingID breq).trace = 0 := by
  have h4 := getServices_facts imp w
    ⟨breq.parameters.index imp.RequesterUsernameParameterKey⟩
    bti.templateInstanceNamespace instanceID
  rw [hsvc] at h4
  have h5 := getSecrets_facts imp w
    ⟨breq.parameters.index imp.RequesterUsernameParameterKey⟩
    bti.templateInstanceNamespace instanceID
  rw [hsec] at h5
  have h41 : updateAttempts c4 = 0 := h4.1
  have h51 : updateAttempts c5 = 0 := h5.1
  have h : Bind imp w instanceID bindingID breq
      = ⟨.response (NewResponse .OK (some ⟨⟨services, secrets⟩⟩) none), w.cluster,
          [.getBrokerTemplateInstance instanceID,
           .authorize ⟨breq.parameters.index imp.RequesterUsernameParameterKey⟩
             (templateInstancesGetAttributes imp bti.templateInstanceNamespace),
           .getTemplateInstance bti.templateInstanceNamespace bti.templateInstanceName]
          ++ c4 ++ c5⟩ := by
    simp [Bind, hv, hp, hget, hauth, hti, hid, hsvc, hsec, bindingStatus_eq, hmem]
  rw [h]
  refine ⟨rfl, rfl, ?_⟩
  simp only [updateAttempts_append, h41, h51]
  rfl

/-- C1: when `Bind` succeeds for a binding ID that is not yet among the binding
IDs of the instance record, it answers Created; and a second `Bind` with the
same arguments on the store as the first call left it (same authorization
oracle, nothing else changed) answers OK with the same credential payload, and
makes no update: the store stays as the first call left it. -/
theorem Bind_idempotent (imp : Imports) (w : World) (instanceID bindingID : String)
    (breq : BindRequest)
    (hok : (Bind imp w instanceID bindingID breq).result.code = some .Created ∨
      (Bind imp w instanceID bindingID breq).result.code = some .OK)
    (hnew : ∀ r, w.cluster.findBrokerTemplateInstance instanceID = some r →
      bindingID ∉ r.bindingIDs) :
    ∃ credentials,
      (Bind imp w instanceID bindingID breq).result
        = .response (NewResponse .Created (some ⟨credentials⟩) none) ∧
      (Bind imp { w with cluster := (Bind imp w instanceID bindingID breq).cluster }
          instanceID bindingID breq).result
        = .response (NewResponse .OK (some ⟨credentials⟩) none) ∧
      (Bind imp { w with cluster := (Bind imp w instanceID bindingID breq).cluster }
          instanceID bindingID breq).cluster
        = (Bind imp w instanceID bindingID breq).cluster ∧
      updateAttempts
        (Bind imp { w with cluster := (Bind imp w instanceID bindingID breq).cluster }
          instanceID bindingID breq).trace = 0 := by
  revert hok
  refine Bind_elim imp w instanceID bindingID breq
    (fun o => (o.result.code = some .Created ∨ o.result.code = some .OK) →
      ∃ credentials,
        o.result = .response (NewResponse .Created (some ⟨credentials⟩) none) ∧
        (Bind imp { w with cluster := o.cluster } instanceID bindingID breq).result
          = .response (NewResponse .OK (some ⟨credentials⟩) none) ∧
        (Bind imp { w with cluster := o.cluster } instanceID bindingID breq).cluster
          = o.cluster ∧
        updateAttempts
          (Bind imp { w with cluster := o.cluster } instanceID bindingID breq).trace = 0)
    ?_ ?_ ?_ ?_ ?_ ?_
  · intro _ h
    simp [Result.code, BadRequest, NewResponse] at h
  · intro _ _ h
    simp [Result.code, BadRequest, NewResponse] at h
  · intro _ _ _ _ _ h
    simp [Result.code, BadRequest, NewResponse] at h
  · intro _ _ _ _ _ h
    simp [Result.code, InternalServerError, NewResponse] at h
  · intro _ _ _ _ _ _ h
    simp [Result.code, Forbidden, NewResponse] at h
  · intro bti hv hp hget hauth t3 _
    refine ⟨fun err _ h => ?_, fun ti hti => ⟨fun _ h => ?_, fun hid =>
      ⟨fun res c4 hsvc h => ?_, fun services c4 hsvc =>
        ⟨fun res c5 hsec h => ?_, fun secrets c5 hsec =>
          ⟨fun hmem _ => ?_, fun hmem obj hobj =>
            ⟨fun err _ h => ?_, fun stored cluster hupd _ => ?_⟩⟩⟩⟩⟩⟩
    · simp [Result.code, InternalServerError, NewResponse] at h
    · simp [Result.code, BadRequest, NewResponse] at h
    · have h4 := getServices_facts imp w
        ⟨breq.parameters.index imp.RequesterUsernameParameterKey⟩
        bti.templateInstanceNamespace instanceID
      rw [hsvc] at h4
      obtain ⟨hc1, hc2, _⟩ := h4.2.2 res rfl
      rcases h with h | h
      · exact absurd h hc1
      · exact absurd h hc2
    · have h5 := getSecrets_facts imp w
        ⟨breq.parameters.index imp.RequesterUsernameParameterKey⟩
        bti.templateInstanceNamespace instanceID
      rw [hsec] at h5
      obtain ⟨hc1, hc2, _⟩ := h5.2.2 res rfl
      rcases h with h | h
      · exact absurd h hc1
      · exact absurd h hc2
    · exact absurd hmem
        (hnew bti (getBrokerTemplateInstance_ok w instanceID bti hget).2.1)
    · simp [Result.code, InternalServerError, NewResponse] at h
    · obtain ⟨hfault, hfind, hname⟩ := getBrokerTemplateInstance_ok w instanceID bti hget
      obtain ⟨hstored, hcluster, _⟩ :=
        updateBrokerTemplateInstance_ok w obj stored cluster hupd
      have hobjname : obj.name = instanceID := by rw [hobj]; exact hname
      have hafter := find_after_update w obj stored cluster hupd instanceID
      rw [if_pos hobjname.symm] at hafter
      have hns : stored.templateInstanceNamespace = bti.templateInstanceNamespace := by
        rw [hstored, hobj]
      have htn : stored.templateInstanceName = bti.templateInstanceName := by
        rw [hstored, hobj]
      have hids : bindingID ∈ stored.bindingIDs := by
        rw [hstored, hobj]
        simp
      have hget' : ({ w with cluster := cluster } : World).getBrokerTemplateInstance instanceID
          = .ok stored := by
        simp [World.getBrokerTemplateInstance, hfault, hafter]
      have hti' : ({ w with cluster := cluster } : World).getTemplateInstance
          stored.templateInstanceNamespace stored.templateInstanceName = .ok ti := by
        rw [hns, htn, ← hti]
        exact getTemplateInstance_congr w _ _ _ rfl (by rw [hcluster])
      have hsvc' : getServices imp { w with cluster := cluster }
          ⟨breq.parameters.index imp.RequesterUsernameParameterKey⟩
          stored.templateInstanceNamespace instanceID = (.ok services, c4) := by
        rw [hns, ← hsvc]
        exact getServices_congr imp w _ _ _ _ rfl rfl (by rw [hcluster])
      have hsec' : getSecrets imp { w with cluster := cluster }
          ⟨breq.parameters.index imp.RequesterUsernameParameterKey⟩
          stored.templateInstanceNamespace instanceID = (.ok secrets, c5) := by
        rw [hns, ← hsec]
        exact getSecrets_congr imp w _ _ _ _ rfl rfl (by rw [hcluster])
      have hauth' : ({ w with cluster := cluster } : World).authorize
          ⟨breq.parameters.index imp.RequesterUsernameParameterKey⟩
          (templateInstancesGetAttributes imp stored.templateInstanceNamespace) = none := by
        rw [hns]
        exact hauth
      exact ⟨⟨services, secrets⟩, rfl,
        Bind_already_bound imp { w with cluster := cluster } instanceID bindingID breq
          stored ti services secrets c4 c5 hv hp hget' hauth' hti' hid hsvc' hsec' hids⟩

/-- Witness of C1: on `demoWorld` the binding `b1` of instance `abc` is new, the
call succeeds with Created, and the repeated call answers OK with the same
payload. -/
theorem Bind_idempotent_witness :
    ∃ credentials,
      (Bind originImports demoWorld "abc" "b1" demoRequest).result
        = .response (NewResponse .Created (some ⟨credentials⟩) none) ∧
      (Bind originImports
          { demoWorld with
            cluster := (Bind originImports demoWorld "abc" "b1" demoRequest).cluster }
          "abc" "b1" demoRequest).result
        = .response (NewResponse .OK (some ⟨credentials⟩) none) ∧
      (Bind originImports
          { demoWorld with
            cluster := (Bind originImports demoWorld "abc" "b1" demoRequest).cluster }
          "abc" "b1" demoRequest).cluster
        = (Bind originImports demoWorld "abc" "b1" demoRequest).cluster ∧
      updateAttempts
        (Bind originImports
          { demoWorld with
            cluster := (Bind originImports demoWorld "abc" "b1" demoRequest).cluster }
          "abc" "b1" demoRequest).trace = 0 :=
  Bind_idempotent originImports demoWorld "abc" "b1" demoRequest (Or.inl (by decide))
    (fun r hr => by
      have h : demoWorld.cluster.findBrokerTemplateInstance "abc"
          = some ⟨"abc", 7, "ns", "ti", ["b0"]⟩ := by decide
      rw [h] at hr
      cases hr
      decide)

end ServiceBroker
